import Mathlib

/-!
Verification development for the tank-agent repository
(src/gpio_compat.py and src/motor_control.py).

Shallow embedding conventions:
* Python floats are modelled as rationals (ℚ); Python's `int()` truncation
  toward zero is `pyInt`.
* Optional Python values (`None` or an object) are `Option`; Python
  truthiness of an optional int (`if self.in3_pin:`) is `truthy`
  (`None` and `0` are both falsy).
* The backend environment modelled is the file's stated target
  (`gpio_compat.py`: "GPIO Compatibility Layer for Raspberry Pi 5"):
  `lgpio` is available (`PI5_AVAILABLE = True`) and the legacy
  `RPi.GPIO` module is absent (`RPI_GPIO_AVAILABLE = False`).
  `lgpio` calls are fire-and-forget hardware effects recorded in a trace.
* Fallible Python code (attribute access on a possibly-missing `pwm_b`)
  returns `Except PyErr`.
-/

namespace TankAgent

/-- Python `int()` applied to a rational: truncation toward zero. -/
def pyInt (q : ℚ) : Int := if 0 ≤ q then ⌊q⌋ else ⌈q⌉

/-- Python truthiness of an optional integer: `None` and `0` are falsy. -/
def truthy : Option Int → Bool
  | none => false
  | some n => n != 0

/-- Python truthiness of an optional rational (used for `duration`):
`None` and `0` are falsy. -/
def truthyQ : Option ℚ → Bool
  | none => false
  | some d => d != 0

/-- Value of an optional pin argument as passed on to the GPIO layer
(only ever consulted under a truthiness guard in the source). -/
def pinVal : Option Int → Int
  | none => 0
  | some n => n

/-- Observable effects of a run: `lgpio` calls, simulation-mode prints
and real-time pauses. -/
inductive Eff
  | chipOpen
  | chipClose (h : Nat)
  | claimOut (h : Nat) (pin : Int)
  | gpioWrite (h : Nat) (pin : Int) (value : Bool)
  | simPrint (pin : Int) (value : Bool)
  | txPwm (h : Nat) (pin : Int) (freq : ℚ) (dutyUnits : Int)
  | sleep (t : ℚ)
deriving DecidableEq, Repr

/-- Python runtime errors the embedded code can raise. -/
inductive PyErr
  | attributeError
deriving DecidableEq, Repr

/-- `LgpioPWM` (gpio_compat.py): PWM implementation using lgpio.
`handle` is the chip handle captured at creation time. -/
structure Pwm where
  handle : Option Nat
  pin : Int
  frequency : ℚ
  duty_cycle : ℚ
  running : Bool
deriving DecidableEq, Repr

/-- `LgpioPWM.start`: record the duty cycle, transmit it when a handle
was captured (duty 0-100 scaled to lgpio's 0-1000000), mark running. -/
def Pwm.start (p : Pwm) (duty : ℚ) : Pwm × List Eff :=
  ({ p with duty_cycle := duty, running := true },
   match p.handle with
   | some h => [.txPwm h p.pin p.frequency (pyInt (duty / 100 * 1000000))]
   | none => [])

/-- `LgpioPWM.ChangeDutyCycle`: record the duty cycle; transmit only when
running and a handle was captured. -/
def Pwm.ChangeDutyCycle (p : Pwm) (duty : ℚ) : Pwm × List Eff :=
  ({ p with duty_cycle := duty },
   if p.running then
     match p.handle with
     | some h => [.txPwm h p.pin p.frequency (pyInt (duty / 100 * 1000000))]
     | none => []
   else [])

/-- `LgpioPWM.stop`: transmit a zero-frequency stop when a handle was
captured, mark not running. -/
def Pwm.stop (p : Pwm) : Pwm × List Eff :=
  ({ p with running := false },
   match p.handle with
   | some h => [.txPwm h p.pin 0 0]
   | none => [])

/-- Last-write-wins record of the levels actually driven on hardware pins
(model bookkeeping for the observable pin state; pins not yet written read
back `false`). -/
def setLevel (lv : List (Int × Bool)) (pin : Int) (v : Bool) : List (Int × Bool) :=
  (pin, v) :: lv

/-- Read a pin level from the last-write-wins record; default low. -/
def getLevel (lv : List (Int × Bool)) (pin : Int) : Bool :=
  match lv with
  | [] => false
  | (p, v) :: rest => if pin = p then v else getLevel rest pin

/-- Class-level state of `GPIO` (gpio_compat.py): the chip handle and the
`_pwm_instances` registry, plus the bookkeeping record of driven pin
levels. -/
structure Gpio where
  handle : Option Nat
  pwm_instances : List Pwm
  levels : List (Int × Bool)
deriving DecidableEq, Repr

/-- Module-import state: no handle open, empty registry. -/
def Gpio.initial : Gpio := ⟨none, [], []⟩

/-- `GPIO.setmode`: on the Pi 5 backend this opens gpiochip 0
(every call reopens it and overwrites the stored handle). -/
def Gpio.setmode (g : Gpio) : Gpio × List Eff :=
  ({ g with handle := some 0 }, [.chipOpen])

/-- `GPIO.setup(pin, OUT)`: claim the pin as an output when a handle is
open; with no handle (and no legacy module) it does nothing. -/
def Gpio.setup (g : Gpio) (pin : Int) : Gpio × List Eff :=
  match g.handle with
  | some h => (g, [.claimOut h pin])
  | none => (g, [])

/-- `GPIO.output`: write the pin through lgpio when a handle is open;
otherwise (no handle, legacy module absent) print a simulation message
and drive nothing. -/
def Gpio.output (g : Gpio) (pin : Int) (value : Bool) : Gpio × List Eff :=
  match g.handle with
  | some h => ({ g with levels := setLevel g.levels pin value }, [.gpioWrite h pin value])
  | none => (g, [.simPrint pin value])

/-- `GPIO.PWM(pin, frequency)`: build an `LgpioPWM` capturing the current
handle. Faithful to the source: the new instance is NOT added to
`_pwm_instances`. -/
def Gpio.PWM (g : Gpio) (pin : Int) (frequency : ℚ) : Pwm :=
  ⟨g.handle, pin, frequency, 0, false⟩

/-- `GPIO.cleanup`: when a handle is open, stop every PWM in the
`_pwm_instances` registry, clear the registry and close the chip;
otherwise do nothing. -/
def Gpio.cleanup (g : Gpio) : Gpio × List Eff :=
  match g.handle with
  | some h =>
      ({ handle := none, pwm_instances := [], levels := g.levels },
       (g.pwm_instances.map (fun p => (p.stop).2)).flatten ++ [.chipClose h])
  | none => (g, [])

/-- `L298NMotorController` (motor_control.py): stored pin assignment plus
the PWM objects. Channel-B pins are the Python optionals as passed to
`__init__`; `pwm_b` exists iff `enb_pin` was truthy at construction. -/
structure L298N where
  ena_pin : Int
  in1_pin : Int
  in2_pin : Int
  in3_pin : Option Int
  in4_pin : Option Int
  enb_pin : Option Int
  pwm_a : Pwm
  pwm_b : Option Pwm
deriving DecidableEq, Repr

/-- The source's channel-B presence test
`if self.in3_pin and self.in4_pin and self.enb_pin`. -/
def L298N.hasB (c : L298N) : Bool :=
  truthy c.in3_pin && truthy c.in4_pin && truthy c.enb_pin

/-- `motor_a_forward`: IN1 HIGH, IN2 LOW, duty := speed. -/
def L298N.motor_a_forward (g : Gpio) (c : L298N) (speed : ℚ) :
    Gpio × L298N × List Eff :=
  let r1 := g.output c.in1_pin true
  let r2 := r1.1.output c.in2_pin false
  let rp := c.pwm_a.ChangeDutyCycle speed
  (r2.1, { c with pwm_a := rp.1 }, r1.2 ++ r2.2 ++ rp.2)

/-- `motor_a_backward`: IN1 LOW, IN2 HIGH, duty := speed. -/
def L298N.motor_a_backward (g : Gpio) (c : L298N) (speed : ℚ) :
    Gpio × L298N × List Eff :=
  let r1 := g.output c.in1_pin false
  let r2 := r1.1.output c.in2_pin true
  let rp := c.pwm_a.ChangeDutyCycle speed
  (r2.1, { c with pwm_a := rp.1 }, r1.2 ++ r2.2 ++ rp.2)

/-- `stop_motor_a`: IN1 LOW, IN2 LOW, duty := 0. -/
def L298N.stop_motor_a (g : Gpio) (c : L298N) :
    Gpio × L298N × List Eff :=
  let r1 := g.output c.in1_pin false
  let r2 := r1.1.output c.in2_pin false
  let rp := c.pwm_a.ChangeDutyCycle 0
  (r2.1, { c with pwm_a := rp.1 }, r1.2 ++ r2.2 ++ rp.2)

/-- `motor_b_forward`: guarded by the three-way truthiness test; inside
the guard it writes IN3/IN4 and then touches `self.pwm_b`, which raises
`AttributeError` if that attribute was never created. -/
def L298N.motor_b_forward (g : Gpio) (c : L298N) (speed : ℚ) :
    Except PyErr (Gpio × L298N × List Eff) :=
  if c.hasB then
    let r1 := g.output (pinVal c.in3_pin) true
    let r2 := r1.1.output (pinVal c.in4_pin) false
    match c.pwm_b with
    | none => .error .attributeError
    | some pb =>
        let rp := pb.ChangeDutyCycle speed
        .ok (r2.1, { c with pwm_b := some rp.1 }, r1.2 ++ r2.2 ++ rp.2)
  else .ok (g, c, [])

/-- `motor_b_backward`: mirror of `motor_b_forward`. -/
def L298N.motor_b_backward (g : Gpio) (c : L298N) (speed : ℚ) :
    Except PyErr (Gpio × L298N × List Eff) :=
  if c.hasB then
    let r1 := g.output (pinVal c.in3_pin) false
    let r2 := r1.1.output (pinVal c.in4_pin) true
    match c.pwm_b with
    | none => .error .attributeError
    | some pb =>
        let rp := pb.ChangeDutyCycle speed
        .ok (r2.1, { c with pwm_b := some rp.1 }, r1.2 ++ r2.2 ++ rp.2)
  else .ok (g, c, [])

/-- `stop_motor_b`: guarded by `if self.in3_pin and self.in4_pin` only;
the duty write is further guarded by `if self.enb_pin`. -/
def L298N.stop_motor_b (g : Gpio) (c : L298N) :
    Except PyErr (Gpio × L298N × List Eff) :=
  if truthy c.in3_pin && truthy c.in4_pin then
    let r1 := g.output (pinVal c.in3_pin) false
    let r2 := r1.1.output (pinVal c.in4_pin) false
    if truthy c.enb_pin then
      match c.pwm_b with
      | none => .error .attributeError
      | some pb =>
          let rp := pb.ChangeDutyCycle 0
          .ok (r2.1, { c with pwm_b := some rp.1 }, r1.2 ++ r2.2 ++ rp.2)
    else .ok (r2.1, c, r1.2 ++ r2.2)
  else .ok (g, c, [])

/-- `stop_all`: stop channel A then channel B. -/
def L298N.stop_all (g : Gpio) (c : L298N) :
    Except PyErr (Gpio × L298N × List Eff) := do
  let ra := c.stop_motor_a g
  let rb ← ra.2.1.stop_motor_b ra.1
  .ok (rb.1, rb.2.1, ra.2.2 ++ rb.2.2)

/-- `L298NMotorController.__init__`: store pins, open the backend
(`setmode`), set up channel-A pins, set up channel-B pins only when all
three are truthy, create and start `pwm_a`, create and start `pwm_b` only
when `enb_pin` is truthy, then `stop_all`. -/
def L298N.mk0 (g : Gpio) (ena in1 in2 : Int) (oin3 oin4 oenb : Option Int) :
    Except PyErr (Gpio × L298N × List Eff) := do
  let rm := g.setmode
  let s1 := rm.1.setup ena
  let s2 := s1.1.setup in1
  let s3 := s2.1.setup in2
  let rb :=
    if truthy oin3 && truthy oin4 && truthy oenb then
      let t1 := s3.1.setup (pinVal oin3)
      let t2 := t1.1.setup (pinVal oin4)
      let t3 := t2.1.setup (pinVal oenb)
      (t3.1, t1.2 ++ t2.2 ++ t3.2)
    else (s3.1, [])
  let pa := (rb.1.PWM ena 1000).start 0
  let pbr :
      Option Pwm × List Eff :=
    if truthy oenb then
      let pb := (rb.1.PWM (pinVal oenb) 1000).start 0
      (some pb.1, pb.2)
    else (none, [])
  let c : L298N :=
    { ena_pin := ena, in1_pin := in1, in2_pin := in2,
      in3_pin := oin3, in4_pin := oin4, enb_pin := oenb,
      pwm_a := pa.1, pwm_b := pbr.1 }
  let rs ← c.stop_all rb.1
  .ok (rs.1, rs.2.1,
    rm.2 ++ s1.2 ++ s2.2 ++ s3.2 ++ rb.2 ++ pa.2 ++ pbr.2 ++ rs.2.2)

/-- `L298NMotorController.cleanup`: `stop_all`, stop `pwm_a`, stop
`pwm_b` when the attribute exists (`hasattr`), then `GPIO.cleanup`. -/
def L298N.cleanup (g : Gpio) (c : L298N) :
    Except PyErr (Gpio × L298N × List Eff) := do
  let rs ← c.stop_all g
  let pa := rs.2.1.pwm_a.stop
  let c1 := { rs.2.1 with pwm_a := pa.1 }
  let pbRes : Option Pwm × List Eff :=
    match c1.pwm_b with
    | some pb => (some (pb.stop).1, (pb.stop).2)
    | none => (none, [])
  let c2 := { c1 with pwm_b := pbRes.1 }
  let rc := rs.1.cleanup
  .ok (rc.1, c2, rs.2.2 ++ pa.2 ++ pbRes.2 ++ rc.2)

/-- `StepperMotor.step_sequence`: the fixed 4-state full-step table. -/
def step_sequence : List (List Nat) :=
  [[1, 0, 0, 0], [0, 1, 0, 0], [0, 0, 1, 0], [0, 0, 0, 1]]

/-- `StepperMotor` (motor_control.py): the four pins, the configured
steps per revolution, and the current position in the step table. -/
structure Stepper where
  pins : List Int
  steps_per_rev : Nat
  current_step : Int
deriving DecidableEq, Repr

/-- The `current_step` update of `step_motor`
(Python `%` on ints agrees with `Int.emod` for a positive modulus). -/
def stepNext (s direction : Int) : Int :=
  if direction > 0 then (s + 1) % 4 else (s - 1) % 4

/-- `StepperMotor.__init__`: open the backend, claim the four pins and
drive them LOW, start at step 0. -/
def Stepper.mk0 (g : Gpio) (in1 in2 in3 in4 : Int) (steps_per_rev : Nat) :
    Gpio × Stepper × List Eff :=
  let rm := g.setmode
  let pins := [in1, in2, in3, in4]
  let rsetup := pins.foldl
    (fun acc pin =>
      let s := acc.1.setup pin
      let o := s.1.output pin false
      (o.1, acc.2 ++ s.2 ++ o.2))
    (rm.1, rm.2)
  (rsetup.1, { pins := pins, steps_per_rev := steps_per_rev, current_step := 0 },
   rsetup.2)

/-- `StepperMotor.step_motor`: advance `current_step`, write the new
state's coil pattern to the four pins, pause for `delay`. -/
def Stepper.step_motor (g : Gpio) (st : Stepper) (direction : Int) (delay : ℚ) :
    Gpio × Stepper × List Eff :=
  let cs := stepNext st.current_step direction
  let sequence := step_sequence.getD cs.toNat []
  let rw := (st.pins.zip sequence).foldl
    (fun acc pv =>
      let o := acc.1.output pv.1 (pv.2 != 0)
      (o.1, acc.2 ++ o.2))
    (g, ([] : List Eff))
  (rw.1, { st with current_step := cs }, rw.2 ++ [.sleep delay])

/-- The sequence of `step_motor` invocations issued by `rotate_degrees`:
the loop `for _ in range(steps): self.step_motor(direction, delay)` with
`steps = int((abs(degrees) / 360) * self.steps_per_rev)` and
`direction = 1 if degrees > 0 else -1`. -/
def Stepper.rotateCalls (st : Stepper) (degrees : ℚ) : List Int :=
  List.replicate (pyInt (|degrees| / 360 * st.steps_per_rev)).toNat
    (if degrees > 0 then 1 else -1)

/-- `StepperMotor.rotate_degrees`: run the step calls of `rotateCalls`
with `delay = 1.0 / speed`. -/
def Stepper.rotate_degrees (g : Gpio) (st : Stepper) (degrees : ℚ) (speed : ℚ) :
    Gpio × Stepper × List Eff :=
  (st.rotateCalls degrees).foldl
    (fun acc d =>
      let r := Stepper.step_motor acc.1 acc.2.1 d (1 / speed)
      (r.1, r.2.1, acc.2.2 ++ r.2.2))
    (g, st, [])

/-- `StepperMotor.stop`: drive all four pins LOW. -/
def Stepper.stop (g : Gpio) (st : Stepper) : Gpio × Stepper × List Eff :=
  let rw := st.pins.foldl
    (fun acc pin =>
      let o := acc.1.output pin false
      (o.1, acc.2 ++ o.2))
    (g, ([] : List Eff))
  (rw.1, st, rw.2)

/-- The pin mapping handed to `TankController._init_motors` by the
(external, already-validated) configuration files: full six-pin wiring
for each bank plus the gimbal pins and steps-per-revolution. -/
structure TankCfg where
  l_ena : Int
  l_in1 : Int
  l_in2 : Int
  l_in3 : Int
  l_in4 : Int
  l_enb : Int
  r_ena : Int
  r_in1 : Int
  r_in2 : Int
  r_in3 : Int
  r_in4 : Int
  r_enb : Int
  g_in1 : Int
  g_in2 : Int
  g_in3 : Int
  g_in4 : Int
  g_spr : Nat
deriving DecidableEq, Repr

/-- `TankController`: left and right banks and the gimbal stepper. -/
structure Tank where
  left_controller : L298N
  right_controller : L298N
  gimbal : Stepper
deriving DecidableEq, Repr

/-- `TankController.__init__` / `_init_motors`: build the left bank, the
right bank (config pins are ints, so the optional arguments are `some`),
then the gimbal stepper. -/
def Tank.mk0 (g : Gpio) (cfg : TankCfg) :
    Except PyErr (Gpio × Tank × List Eff) := do
  let rl ← L298N.mk0 g cfg.l_ena cfg.l_in1 cfg.l_in2
    (some cfg.l_in3) (some cfg.l_in4) (some cfg.l_enb)
  let rr ← L298N.mk0 rl.1 cfg.r_ena cfg.r_in1 cfg.r_in2
    (some cfg.r_in3) (some cfg.r_in4) (some cfg.r_enb)
  let rg := Stepper.mk0 rr.1 cfg.g_in1 cfg.g_in2 cfg.g_in3 cfg.g_in4 cfg.g_spr
  .ok (rg.1,
    { left_controller := rl.2.1, right_controller := rr.2.1, gimbal := rg.2.1 },
    rl.2.2 ++ rr.2.2 ++ rg.2.2)

/-- `TankController.stop_all`: stop both banks. -/
def Tank.stop_all (g : Gpio) (t : Tank) :
    Except PyErr (Gpio × Tank × List Eff) := do
  let rl ← t.left_controller.stop_all g
  let rr ← t.right_controller.stop_all rl.1
  .ok (rr.1, { t with left_controller := rl.2.1, right_controller := rr.2.1 },
    rl.2.2 ++ rr.2.2)

/-- Drive all four channels with the given per-channel moves; shared
glue of the four motion calls. `dir* = true` means forward. -/
def Tank.drive (g : Gpio) (t : Tank) (leftFwd rightFwd : Bool) (speed : ℚ) :
    Except PyErr (Gpio × Tank × List Eff) := do
  let ra :=
    if leftFwd then t.left_controller.motor_a_forward g speed
    else t.left_controller.motor_a_backward g speed
  let rb ←
    if leftFwd then ra.2.1.motor_b_forward ra.1 speed
    else ra.2.1.motor_b_backward ra.1 speed
  let rc :=
    if rightFwd then t.right_controller.motor_a_forward rb.1 speed
    else t.right_controller.motor_a_backward rb.1 speed
  let rd ←
    if rightFwd then rc.2.1.motor_b_forward rc.1 speed
    else rc.2.1.motor_b_backward rc.1 speed
  .ok (rd.1,
    { t with left_controller := rb.2.1, right_controller := rd.2.1 },
    ra.2.2 ++ rb.2.2 ++ rc.2.2 ++ rd.2.2)

/-- The `if duration: time.sleep(duration); self.stop_all()` epilogue
shared by the four motion calls (`duration` is truthiness-tested, so
`None` and `0` both skip it). -/
def Tank.durationEpilogue (g : Gpio) (t : Tank) (duration : Option ℚ)
    (trace : List Eff) : Except PyErr (Gpio × Tank × List Eff) := do
  if truthyQ duration then
    let rs ← t.stop_all g
    .ok (rs.1, rs.2.1, trace ++ [.sleep (duration.getD 0)] ++ rs.2.2)
  else .ok (g, t, trace)

/-- `TankController.move_forward`. -/
def Tank.move_forward (g : Gpio) (t : Tank) (speed : ℚ) (duration : Option ℚ) :
    Except PyErr (Gpio × Tank × List Eff) := do
  let rd ← t.drive g true true speed
  Tank.durationEpilogue rd.1 rd.2.1 duration rd.2.2

/-- `TankController.move_backward`. -/
def Tank.move_backward (g : Gpio) (t : Tank) (speed : ℚ) (duration : Option ℚ) :
    Except PyErr (Gpio × Tank × List Eff) := do
  let rd ← t.drive g false false speed
  Tank.durationEpilogue rd.1 rd.2.1 duration rd.2.2

/-- `TankController.turn_left`: left bank backward, right bank forward. -/
def Tank.turn_left (g : Gpio) (t : Tank) (speed : ℚ) (duration : Option ℚ) :
    Except PyErr (Gpio × Tank × List Eff) := do
  let rd ← t.drive g false true speed
  Tank.durationEpilogue rd.1 rd.2.1 duration rd.2.2

/-- `TankController.turn_right`: left bank forward, right bank backward. -/
def Tank.turn_right (g : Gpio) (t : Tank) (speed : ℚ) (duration : Option ℚ) :
    Except PyErr (Gpio × Tank × List Eff) := do
  let rd ← t.drive g true false speed
  Tank.durationEpilogue rd.1 rd.2.1 duration rd.2.2

/-- `TankController.pan_camera`: delegate to the gimbal's
`rotate_degrees` at the default speed 500. -/
def Tank.pan_camera (g : Gpio) (t : Tank) (degrees : ℚ) :
    Except PyErr (Gpio × Tank × List Eff) :=
  let r := Stepper.rotate_degrees g t.gimbal degrees 500
  .ok (r.1, { t with gimbal := r.2.1 }, r.2.2)

/-- `TankController.cleanup`: clean up the left bank, the right bank,
stop the gimbal, then `GPIO.cleanup`. -/
def Tank.cleanup (g : Gpio) (t : Tank) :
    Except PyErr (Gpio × Tank × List Eff) := do
  let rl ← t.left_controller.cleanup g
  let rr ← t.right_controller.cleanup rl.1
  let rg := Stepper.stop rr.1 t.gimbal
  let rc := rg.1.cleanup
  .ok (rc.1,
    { left_controller := rl.2.1, right_controller := rr.2.1, gimbal := rg.2.1 },
    rl.2.2 ++ rr.2.2 ++ rg.2.2 ++ rc.2)

/-! ### C1 and C7: channel-level pin observations -/

/-- Reconstruct the driven pin levels after a prefix of a hardware trace:
each `gpioWrite` is one observable instant. -/
def replayLevels (lv : List (Int × Bool)) : List Eff → List (Int × Bool)
  | [] => lv
  | .gpioWrite _ pin v :: rest => replayLevels (setLevel lv pin v) rest
  | _ :: rest => replayLevels lv rest

/-- The public calls addressing one motor channel (channel A of a bank):
`motor_a_forward`, `motor_a_backward`, `stop_motor_a`. -/
inductive ACmd
  | forward (speed : ℚ)
  | backward (speed : ℚ)
  | stop
deriving DecidableEq, Repr

def runACmd (g : Gpio) (c : L298N) : ACmd → Gpio × L298N × List Eff
  | .forward s => c.motor_a_forward g s
  | .backward s => c.motor_a_backward g s
  | .stop => c.stop_motor_a g

def runACmds (g : Gpio) (c : L298N) : List ACmd → Gpio × L298N × List Eff
  | [] => (g, c, [])
  | cmd :: rest =>
      let r := runACmd g c cmd
      let rr := runACmds r.1 r.2.1 rest
      (rr.1, rr.2.1, r.2.2 ++ rr.2.2)

/-- A fully wired bank on concrete pins (ENA 25, IN1 23, IN2 24,
IN3 17, IN4 27, ENB 22), built from the module-import state.
Construction never fails; the error branch is unreachable filler. -/
def demoBank : Gpio × L298N × List Eff :=
  match L298N.mk0 Gpio.initial 25 23 24 (some 17) (some 27) (some 22) with
  | .ok r => r
  | .error _ =>
      (Gpio.initial, ⟨25, 23, 24, none, none, none, Gpio.initial.PWM 0 0, none⟩, [])

/-- Demo run for C1: backward at speed 50 (spinning), then a reversal to
forward at speed 50. -/
def demoReversalTrace : List Eff :=
  demoBank.2.2 ++ (runACmds demoBank.1 demoBank.2.1
    [ACmd.backward 50, ACmd.forward 50]).2.2

/-- A concrete prior state for C7: handle open, channel A previously
driving forward (IN1 high) at duty 70. -/
def demoC7Gpio : Gpio := ⟨some 0, [], [(23, true), (24, false)]⟩

/-- The matching concrete controller for C7: fully wired, channel-A PWM
running at duty 70, channel-B PWM running. -/
def demoC7Ctrl : L298N :=
  ⟨25, 23, 24, some 17, some 27, some 22,
    ⟨some 0, 25, 1000, 70, true⟩, some ⟨some 0, 22, 1000, 70, true⟩⟩


/-- The channel-A invariant: IN1 and IN2 are not both asserted. -/
def chanAOk (g : Gpio) (c : L298N) : Prop :=
  ¬(getLevel g.levels c.in1_pin = true ∧ getLevel g.levels c.in2_pin = true)


/-- Recognizer for pin-claim (`GPIO.setup(..., OUT)`) effects. -/
def isClaim : Eff → Bool
  | .claimOut _ _ => true
  | _ => false

/-- A bank constructed with IN3=5, IN4=6 but ENB=0 (a falsy pin id):
the truthiness test treats channel B as absent for setup and for
forward/backward, but `stop_motor_b` only tests IN3 and IN4.
The error branch is unreachable filler. -/
def demoBankEnb0 : Gpio × L298N × List Eff :=
  match L298N.mk0 Gpio.initial 25 23 24 (some 5) (some 6) (some 0) with
  | .ok r => r
  | .error _ =>
      (Gpio.initial, ⟨25, 23, 24, none, none, none, Gpio.initial.PWM 0 0, none⟩, [])

/-- Placeholder controller for unreachable `Except.error` match arms. -/
def fillerL298N : L298N :=
  ⟨0, 0, 0, none, none, none, ⟨none, 0, 0, 0, false⟩, none⟩

/-- Placeholder coordinator for unreachable `Except.error` match arms. -/
def fillerTank : Tank := ⟨fillerL298N, fillerL298N, ⟨[], 0, 0⟩⟩

/-- A fully wired concrete configuration (distinct pins, 200-step
turret) as the external config loader would supply. -/
def demoCfg : TankCfg :=
  ⟨25, 23, 24, 17, 27, 22, 12, 5, 6, 13, 19, 16, 4, 14, 15, 18, 200⟩

/-- The coordinator constructed from `demoCfg` out of the module-import
state. The error branch is unreachable filler. -/
def demoTank : Gpio × Tank × List Eff :=
  match Tank.mk0 Gpio.initial demoCfg with
  | .ok r => r
  | .error _ => (Gpio.initial, fillerTank, [])

/-- `demoTank` after `TankController.cleanup`. The error branch is
unreachable filler. -/
def demoReleased : Gpio × Tank × List Eff :=
  match Tank.cleanup demoTank.1 demoTank.2.1 with
  | .ok r => r
  | .error _ => (Gpio.initial, fillerTank, [])

/-- The four coordinator motion calls. -/
inductive MoveOp
  | fwd
  | bwd
  | tleft
  | tright
deriving DecidableEq, Repr

/-- Dispatch a coordinator motion call. -/
def Tank.moveCall (g : Gpio) (t : Tank) :
    MoveOp → ℚ → Option ℚ → Except PyErr (Gpio × Tank × List Eff)
  | .fwd, s, d => t.move_forward g s d
  | .bwd, s, d => t.move_backward g s d
  | .tleft, s, d => t.turn_left g s d
  | .tright, s, d => t.turn_right g s d

/-- The public operations of the coordinator surface: the four motion
calls, stop, pan, and the per-bank motor and per-step stepper calls
used for direct testing. -/
inductive TCmd
  | move (op : MoveOp) (s : ℚ) (d : Option ℚ)
  | stopAll
  | pan (deg : ℚ)
  | leftAFwd (s : ℚ)
  | leftABwd (s : ℚ)
  | leftStopA
  | leftBFwd (s : ℚ)
  | leftBBwd (s : ℚ)
  | leftStopB
  | rightAFwd (s : ℚ)
  | rightBFwd (s : ℚ)
  | rightStopB
  | gimbalStep (dir : Int) (delay : ℚ)
deriving DecidableEq, Repr

/-- Run one public operation against the coordinator. -/
def Tank.runCmd (g : Gpio) (t : Tank) : TCmd → Except PyErr (Gpio × Tank × List Eff)
  | .move op s d => t.moveCall g op s d
  | .stopAll => t.stop_all g
  | .pan deg => t.pan_camera g deg
  | .leftAFwd s =>
      let r := t.left_controller.motor_a_forward g s
      .ok (r.1, { t with left_controller := r.2.1 }, r.2.2)
  | .leftABwd s =>
      let r := t.left_controller.motor_a_backward g s
      .ok (r.1, { t with left_controller := r.2.1 }, r.2.2)
  | .leftStopA =>
      let r := t.left_controller.stop_motor_a g
      .ok (r.1, { t with left_controller := r.2.1 }, r.2.2)
  | .leftBFwd s => do
      let r ← t.left_controller.motor_b_forward g s
      .ok (r.1, { t with left_controller := r.2.1 }, r.2.2)
  | .leftBBwd s => do
      let r ← t.left_controller.motor_b_backward g s
      .ok (r.1, { t with left_controller := r.2.1 }, r.2.2)
  | .leftStopB => do
      let r ← t.left_controller.stop_motor_b g
      .ok (r.1, { t with left_controller := r.2.1 }, r.2.2)
  | .rightAFwd s =>
      let r := t.right_controller.motor_a_forward g s
      .ok (r.1, { t with right_controller := r.2.1 }, r.2.2)
  | .rightBFwd s => do
      let r ← t.right_controller.motor_b_forward g s
      .ok (r.1, { t with right_controller := r.2.1 }, r.2.2)
  | .rightStopB => do
      let r ← t.right_controller.stop_motor_b g
      .ok (r.1, { t with right_controller := r.2.1 }, r.2.2)
  | .gimbalStep dir delay =>
      let r := Stepper.step_motor g t.gimbal dir delay
      .ok (r.1, { t with gimbal := r.2.1 }, r.2.2)

/-- Effects that touch no hardware: simulation prints and pauses. -/
def silentEff : Eff → Bool
  | .simPrint _ _ => true
  | .sleep _ => true
  | _ => false

/-- An optional PWM that is not transmitting. -/
def pwmIdle : Option Pwm → Bool
  | none => true
  | some pb => !pb.running

/-- A bank whose PWMs are not transmitting, with the construction
invariant that a configured channel B has its PWM object. -/
def bankIdle (c : L298N) : Bool :=
  !c.pwm_a.running && pwmIdle c.pwm_b && (!c.hasB || c.pwm_b.isSome)

/-- The released-state invariant: backend handle closed, both banks
idle. -/
def releasedState (g : Gpio) (t : Tank) : Bool :=
  g.handle.isNone && bankIdle t.left_controller && bankIdle t.right_controller

/-- Recognizer for pause effects (used to count `step_motor` calls in a
trace: each call pauses exactly once). -/
def isSleep : Eff → Bool
  | .sleep _ => true
  | _ => false

/-! ### Helper lemmas -/

theorem stepNext_nonneg_lt (s d : Int) : 0 ≤ stepNext s d ∧ stepNext s d < 4 := by
  unfold stepNext
  split <;> omega

theorem scanl_stepNext_mem (ds : List Int) (s : Int)
    (hs : 0 ≤ s ∧ s < 4) :
    ∀ x ∈ ds.scanl stepNext s, 0 ≤ x ∧ x < 4 := by
  induction ds generalizing s with
  | nil => simpa using hs
  | cons d ds ih =>
      intro x hx
      simp only [List.scanl, List.mem_cons] at hx
      rcases hx with rfl | hx
      · exact hs
      · exact ih (stepNext s d) (stepNext_nonneg_lt s d) x hx

theorem pyInt_nonneg_eq (q : ℚ) (n : ℤ) (h0 : 0 ≤ q) (h1 : (n : ℚ) ≤ q)
    (h2 : q < (n : ℚ) + 1) : pyInt q = n := by
  rw [pyInt, if_pos h0, Int.floor_eq_iff]
  exact ⟨h1, by push_cast; linarith⟩

theorem writeFold_no_sleep (ps : List (Int × Nat)) (g : Gpio) (acc : List Eff)
    (hacc : acc.filter isSleep = []) :
    ((ps.foldl (fun acc pv =>
        let o := acc.1.output pv.1 (pv.2 != 0)
        (o.1, acc.2 ++ o.2)) (g, acc)).2).filter isSleep = [] := by
  induction ps generalizing g acc with
  | nil => simpa using hacc
  | cons p ps ih =>
      simp only [List.foldl_cons]
      apply ih
      simp only [List.filter_append, hacc, List.nil_append]
      cases hh : g.handle <;> simp [Gpio.output, hh, isSleep]

theorem step_motor_one_sleep (g : Gpio) (st : Stepper) (d : Int) (delay : ℚ) :
    ((Stepper.step_motor g st d delay).2.2.filter isSleep).length = 1 := by
  simp only [Stepper.step_motor]
  rw [List.filter_append,
    writeFold_no_sleep (st.pins.zip (step_sequence.getD
      (stepNext st.current_step d).toNat [])) g [] rfl]
  simp [isSleep]

/-! ### C5 -/

/-- C5: for every sequence of `step(+1)`/`step(-1)` calls from the
initial state, the stepper's `current_step` stays in {0,1,2,3}, advancing
by +1 or -1 modulo 4 per call, and the fixed step table maps each state
to a coil pattern with exactly one bit set, exactly as specified. -/
theorem C5_step_state_invariant (ds : List Int)
    (h : ∀ d ∈ ds, d = 1 ∨ d = -1) :
    (∀ x ∈ ds.scanl stepNext 0, 0 ≤ x ∧ x < 4)
    ∧ (∀ s : Int, stepNext s 1 = (s + 1) % 4 ∧ stepNext s (-1) = (s - 1) % 4)
    ∧ step_sequence =
        [[1, 0, 0, 0], [0, 1, 0, 0], [0, 0, 1, 0], [0, 0, 0, 1]]
    ∧ (∀ s : Int, 0 ≤ s → s < 4 →
        (step_sequence.getD s.toNat []).count 1 = 1) := by
  refine ⟨scanl_stepNext_mem ds 0 (by norm_num), ?_, rfl, ?_⟩
  · intro s
    constructor
    · simp [stepNext]
    · simp [stepNext]
  · intro s h0 h4
    interval_cases s <;> decide

/-- Witness for C5 at the concrete call sequence [+1, -1, -1, +1]. -/
theorem C5_witness :
    (∀ x ∈ ([1, -1, -1, 1] : List Int).scanl stepNext 0, 0 ≤ x ∧ x < 4)
    ∧ (∀ s : Int, stepNext s 1 = (s + 1) % 4 ∧ stepNext s (-1) = (s - 1) % 4)
    ∧ step_sequence =
        [[1, 0, 0, 0], [0, 1, 0, 0], [0, 0, 1, 0], [0, 0, 0, 1]]
    ∧ (∀ s : Int, 0 ≤ s → s < 4 →
        (step_sequence.getD s.toNat []).count 1 = 1) :=
  C5_step_state_invariant [1, -1, -1, 1] (by decide)

/-! ### C3 -/

/-- C3 counterexample: on a 200-step turret, `rotate_degrees(100, speed)`
issues `int(...)` = 55 step calls, while the claimed
`round(|100| / 360 * 200)` is 56 — the source truncates, it does not
round. -/
theorem C3_counterexample :
    ((Stepper.mk [5, 6, 13, 19] 200 0).rotateCalls 100).length = 55
    ∧ (round ((|(100 : ℚ)|) / 360 * 200) : ℤ) = 56
    ∧ ((Stepper.mk [5, 6, 13, 19] 200 0).rotateCalls 100).length ≠
        (round ((|(100 : ℚ)|) / 360 * 200) : ℤ).toNat := by
  have h1 : pyInt ((100 : ℚ) / 360 * 200) = 55 := by
    have he : (100 : ℚ) / 360 * 200 = 500 / 9 := by norm_num
    rw [he, pyInt, if_pos (by norm_num)]
    rw [Int.floor_eq_iff] <;> norm_num
  have h2 : (round ((|(100 : ℚ)|) / 360 * 200) : ℤ) = 56 := by
    have he : (|(100 : ℚ)|) / 360 * (200 : ℚ) + 1 / 2 = 1009 / 18 := by norm_num
    rw [round_eq, he, Int.floor_eq_iff] <;> norm_num
  have h2n : (round ((100 : ℚ) / 360 * 200) : ℤ) = 56 := by
    have he : (100 : ℚ) / 360 * (200 : ℚ) + 1 / 2 = 1009 / 18 := by norm_num
    rw [round_eq, he, Int.floor_eq_iff] <;> norm_num
  refine ⟨?_, h2, ?_⟩
  · simp [Stepper.rotateCalls, h1]
  · simp [Stepper.rotateCalls, h1, h2n]

/-- C3 amended: `rotate_degrees(degrees, speed)` issues exactly
`int(|degrees| / 360 * steps_per_revolution)` (truncation, not rounding)
sequential `step_motor` calls, all with the direction given by the sign
test `1 if degrees > 0 else -1`; on a 200-step turret, `rotate(360, ·)`
issues exactly 200 calls and `rotate(-90, ·)` issues 50 calls in the
negative direction. The executed trace pauses once per step call. -/
theorem C3_amended (st : Stepper) (degrees : ℚ) :
    (st.rotateCalls degrees).length =
      (pyInt (|degrees| / 360 * st.steps_per_rev)).toNat
    ∧ (∀ d ∈ st.rotateCalls degrees, d = if degrees > 0 then 1 else -1)
    ∧ (st.steps_per_rev = 200 →
        ((st.rotateCalls 360).length = 200 ∧ ∀ d ∈ st.rotateCalls 360, d = 1)
        ∧ ((st.rotateCalls (-90)).length = 50 ∧
            ∀ d ∈ st.rotateCalls (-90), d = -1)) := by
  refine ⟨by simp [Stepper.rotateCalls], ?_, ?_⟩
  · intro d hd
    exact (List.eq_of_mem_replicate hd)
  · intro hspr
    refine ⟨⟨?_, ?_⟩, ?_, ?_⟩
    · simp only [Stepper.rotateCalls, hspr, List.length_replicate]
      rw [pyInt_nonneg_eq ((|(360 : ℚ)|) / 360 * ((200 : ℕ) : ℚ)) 200
        (by norm_num) (by norm_num) (by norm_num)]
      rfl
    · intro d hd
      have := List.eq_of_mem_replicate hd
      simpa using this
    · simp only [Stepper.rotateCalls, hspr, List.length_replicate]
      rw [pyInt_nonneg_eq ((|(-90 : ℚ)|) / 360 * ((200 : ℕ) : ℚ)) 50
        (by norm_num) (by norm_num) (by norm_num)]
      rfl
    · intro d hd
      have := List.eq_of_mem_replicate hd
      simpa using this

/-- Witness for C3 (amended) at a concrete 200-step turret. -/
theorem C3_witness :
    (((Stepper.mk [5, 6, 13, 19] 200 0).rotateCalls 360).length = 200 ∧
      ∀ d ∈ (Stepper.mk [5, 6, 13, 19] 200 0).rotateCalls 360, d = 1)
    ∧ (((Stepper.mk [5, 6, 13, 19] 200 0).rotateCalls (-90)).length = 50 ∧
      ∀ d ∈ (Stepper.mk [5, 6, 13, 19] 200 0).rotateCalls (-90), d = -1) :=
  (C3_amended (Stepper.mk [5, 6, 13, 19] 200 0) 360).2.2 rfl

/-- C1 counterexample: on the concretely wired bank, drive channel A
backward and then call `motor_a_forward`. `motor_a_forward` writes IN1
HIGH before it writes IN2 LOW, so at the observable instant after the
19th hardware write of the run (the first pin write of the reversal)
both direction pins (23 and 24) are asserted simultaneously — refuting
the claim that this never happens between the two pin writes of a
reversal while spinning. -/
theorem C1_counterexample :
    getLevel (replayLevels [] (demoReversalTrace.take 19)) 23 = true ∧
    getLevel (replayLevels [] (demoReversalTrace.take 19)) 24 = true := by
  decide

theorem getLevel_all_false (lv : List (Int × Bool))
    (h : ∀ x ∈ lv, x.2 = false) (p : Int) : getLevel lv p = false := by
  induction lv with
  | nil => rfl
  | cons a rest ih =>
      simp only [getLevel]
      split
      · exact h a (List.mem_cons_self a rest)
      · exact ih (fun x hx => h x (List.mem_cons_of_mem a hx))

theorem runACmd_pins_eq (g : Gpio) (c : L298N) (cmd : ACmd) :
    (runACmd g c cmd).2.1.in1_pin = c.in1_pin ∧
    (runACmd g c cmd).2.1.in2_pin = c.in2_pin := by
  cases cmd <;>
    simp [runACmd, L298N.motor_a_forward, L298N.motor_a_backward,
      L298N.stop_motor_a]

theorem runACmd_chanAOk (g : Gpio) (c : L298N) (cmd : ACmd)
    (hpins : c.in1_pin ≠ c.in2_pin) (hok : chanAOk g c) :
    chanAOk (runACmd g c cmd).1 (runACmd g c cmd).2.1 := by
  have hp := runACmd_pins_eq g c cmd
  cases hh : g.handle with
  | none =>
      cases cmd <;>
        simp_all [runACmd, L298N.motor_a_forward, L298N.motor_a_backward,
          L298N.stop_motor_a, Gpio.output, chanAOk]
  | some h =>
      cases cmd <;>
        simp_all [runACmd, L298N.motor_a_forward, L298N.motor_a_backward,
          L298N.stop_motor_a, Gpio.output, chanAOk, setLevel, getLevel]

theorem runACmds_chanAOk (cmds : List ACmd) (g : Gpio) (c : L298N)
    (hpins : c.in1_pin ≠ c.in2_pin) (hok : chanAOk g c) :
    chanAOk (runACmds g c cmds).1 (runACmds g c cmds).2.1 := by
  induction cmds generalizing g c with
  | nil => simpa [runACmds] using hok
  | cons cmd rest ih =>
      have hp := runACmd_pins_eq g c cmd
      exact ih (runACmd g c cmd).1 (runACmd g c cmd).2.1
        (by rw [hp.1, hp.2]; exact hpins)
        (runACmd_chanAOk g c cmd hpins hok)

/-- C1 amended: for every sequence of forward/backward/stop calls on a
motor channel, the channel's two direction pins are never simultaneously
asserted at the call boundaries (after each complete call) — but NOT at
every observable instant inside a call: during a direction reversal the
first pin write transiently asserts both pins (see the counterexample).
Stated for a bank freshly constructed on distinct direction pins, after
every prefix of the call sequence. -/
theorem C1_amended (ena in1 in2 : Int) (oin3 oin4 oenb : Option Int)
    (cmds : List ACmd) (hpins : in1 ≠ in2) :
    ∃ g0 c0 tr,
      L298N.mk0 Gpio.initial ena in1 in2 oin3 oin4 oenb = .ok (g0, c0, tr)
      ∧ c0.in1_pin = in1 ∧ c0.in2_pin = in2
      ∧ ∀ pre suf, cmds = pre ++ suf →
          chanAOk (runACmds g0 c0 pre).1 (runACmds g0 c0 pre).2.1 := by
  have hfalse : ∀ g0 c0 tr,
      L298N.mk0 Gpio.initial ena in1 in2 oin3 oin4 oenb = .ok (g0, c0, tr) →
      (∀ x ∈ g0.levels, x.2 = false) ∧ c0.in1_pin = in1 ∧ c0.in2_pin = in2 := by
    intro g0 c0 tr hmk
    simp only [L298N.mk0, Gpio.setmode, Gpio.setup, Gpio.PWM, Pwm.start,
      L298N.stop_all, L298N.stop_motor_a, L298N.stop_motor_b, Gpio.output,
      Gpio.initial, Pwm.ChangeDutyCycle, bind, Except.bind, pure] at hmk
    cases h3 : truthy oin3 <;> cases h4 : truthy oin4 <;>
      cases h5 : truthy oenb <;>
        simp_all [setLevel] <;>
          · obtain ⟨hg, hc, -⟩ := hmk
            subst hg
            subst hc
            refine ⟨?_, rfl, rfl⟩
            intro a ha
            simp at ha
  obtain ⟨r, hr⟩ : ∃ r, L298N.mk0 Gpio.initial ena in1 in2 oin3 oin4 oenb = .ok r := by
    simp only [L298N.mk0, Gpio.setmode, Gpio.setup, Gpio.PWM, Pwm.start,
      L298N.stop_all, L298N.stop_motor_a, L298N.stop_motor_b, Gpio.output,
      Gpio.initial, Pwm.ChangeDutyCycle, bind, Except.bind, pure]
    cases h3 : truthy oin3 <;> cases h4 : truthy oin4 <;>
      cases h5 : truthy oenb <;>
        simp_all <;>
        exact ⟨_, rfl⟩
  obtain ⟨hlv, h1, h2⟩ := hfalse r.1 r.2.1 r.2.2 (by rw [hr])
  refine ⟨r.1, r.2.1, r.2.2, by rw [hr], h1, h2, ?_⟩
  intro pre suf hsplit
  apply runACmds_chanAOk
  · rw [h1, h2]; exact hpins
  · rw [chanAOk, h1]
    intro hcontra
    rw [getLevel_all_false r.1.levels hlv in1] at hcontra
    exact Bool.false_ne_true hcontra.1

/-- Witness for C1 (amended) on the concretely wired bank of the
counterexample. -/
theorem C1_witness :
    ∃ g0 c0 tr,
      L298N.mk0 Gpio.initial 25 23 24 (some 17) (some 27) (some 22) =
        .ok (g0, c0, tr)
      ∧ c0.in1_pin = 23 ∧ c0.in2_pin = 24
      ∧ ∀ pre suf, [ACmd.backward 50, ACmd.forward 50] = pre ++ suf →
          chanAOk (runACmds g0 c0 pre).1 (runACmds g0 c0 pre).2.1 :=
  C1_amended 25 23 24 (some 17) (some 27) (some 22)
    [ACmd.backward 50, ACmd.forward 50] (by decide)

/-- C7: for every prior channel state (any `g`, any controller), after
`stop_motor_a` both channel-A direction pins read LOW and the channel-A
duty is 0; for a configured channel B, `stop_motor_b` does the same for
channel B; `stop_all` establishes both at once. Requires an open backend
handle (pin writes reach the pins) and, for channel B, the
construction-time invariant that a truthy ENB pin comes with a PWM
object. -/
theorem C7_stop_deasserts (g : Gpio) (c : L298N) (h : Nat) (pb : Pwm)
    (hh : g.handle = some h)
    (hpb : c.hasB = true → c.pwm_b = some pb) :
    (getLevel (c.stop_motor_a g).1.levels c.in1_pin = false
      ∧ getLevel (c.stop_motor_a g).1.levels c.in2_pin = false
      ∧ (c.stop_motor_a g).2.1.pwm_a.duty_cycle = 0)
    ∧ (c.hasB = true →
        ((c.stop_motor_b g).map
          (fun r => getLevel r.1.levels (pinVal c.in3_pin))) = .ok false
        ∧ ((c.stop_motor_b g).map
          (fun r => getLevel r.1.levels (pinVal c.in4_pin))) = .ok false
        ∧ ((c.stop_motor_b g).map
          (fun r => r.2.1.pwm_b.map Pwm.duty_cycle)) = .ok (some 0))
    ∧ (((c.stop_all g).map
          (fun r => getLevel r.1.levels c.in1_pin)) = .ok false
        ∧ ((c.stop_all g).map
          (fun r => getLevel r.1.levels c.in2_pin)) = .ok false
        ∧ ((c.stop_all g).map
          (fun r => r.2.1.pwm_a.duty_cycle)) = .ok 0
        ∧ (c.hasB = true →
            ((c.stop_all g).map
              (fun r => getLevel r.1.levels (pinVal c.in3_pin))) = .ok false
            ∧ ((c.stop_all g).map
              (fun r => getLevel r.1.levels (pinVal c.in4_pin))) = .ok false
            ∧ ((c.stop_all g).map
              (fun r => r.2.1.pwm_b.map Pwm.duty_cycle)) = .ok (some 0))) := by
  refine ⟨?_, ?_, ?_⟩
  · simp [L298N.stop_motor_a, Gpio.output, hh, setLevel, getLevel,
      Pwm.ChangeDutyCycle]
  · intro hB
    have hpb2 := hpb hB
    simp only [L298N.hasB, Bool.and_eq_true] at hB
    simp [L298N.stop_motor_b, hB.1.1, hB.1.2, hB.2, hpb2, Gpio.output, hh,
      setLevel, getLevel, Pwm.ChangeDutyCycle, Except.map]
  · cases t3 : truthy c.in3_pin <;> cases t4 : truthy c.in4_pin <;>
      cases t5 : truthy c.enb_pin <;>
        simp_all [L298N.stop_all, L298N.stop_motor_a, L298N.stop_motor_b,
          L298N.hasB, Gpio.output, hh, bind, Except.bind, setLevel, getLevel,
          Pwm.ChangeDutyCycle, Except.map]

/-- Witness for C7 on a concrete fully wired controller with some prior
state (channel A previously driving forward at duty 70). -/
theorem C7_witness :
    (getLevel ((demoC7Ctrl.stop_motor_a demoC7Gpio).1.levels)
        demoC7Ctrl.in1_pin = false
      ∧ getLevel ((demoC7Ctrl.stop_motor_a demoC7Gpio).1.levels)
        demoC7Ctrl.in2_pin = false
      ∧ (demoC7Ctrl.stop_motor_a demoC7Gpio).2.1.pwm_a.duty_cycle = 0)
    ∧ (demoC7Ctrl.hasB = true →
        ((demoC7Ctrl.stop_motor_b demoC7Gpio).map
          (fun r => getLevel r.1.levels (pinVal demoC7Ctrl.in3_pin))) = .ok false
        ∧ ((demoC7Ctrl.stop_motor_b demoC7Gpio).map
          (fun r => getLevel r.1.levels (pinVal demoC7Ctrl.in4_pin))) = .ok false
        ∧ ((demoC7Ctrl.stop_motor_b demoC7Gpio).map
          (fun r => r.2.1.pwm_b.map Pwm.duty_cycle)) = .ok (some 0))
    ∧ (((demoC7Ctrl.stop_all demoC7Gpio).map
          (fun r => getLevel r.1.levels demoC7Ctrl.in1_pin)) = .ok false
        ∧ ((demoC7Ctrl.stop_all demoC7Gpio).map
          (fun r => getLevel r.1.levels demoC7Ctrl.in2_pin)) = .ok false
        ∧ ((demoC7Ctrl.stop_all demoC7Gpio).map
          (fun r => r.2.1.pwm_a.duty_cycle)) = .ok 0
        ∧ (demoC7Ctrl.hasB = true →
            ((demoC7Ctrl.stop_all demoC7Gpio).map
              (fun r => getLevel r.1.levels (pinVal demoC7Ctrl.in3_pin))) = .ok false
            ∧ ((demoC7Ctrl.stop_all demoC7Gpio).map
              (fun r => getLevel r.1.levels (pinVal demoC7Ctrl.in4_pin))) = .ok false
            ∧ ((demoC7Ctrl.stop_all demoC7Gpio).map
              (fun r => r.2.1.pwm_b.map Pwm.duty_cycle)) = .ok (some 0))) :=
  C7_stop_deasserts demoC7Gpio demoC7Ctrl 0
    ⟨some 0, 22, 1000, 70, true⟩ rfl (fun _ => rfl)

/-! ### C6 and C10: optional channel B -/

/-- C6: a bank constructed without channel-B pins (all three `None`)
constructs successfully, the resulting controller records no channel-B
pins, and every channel-B call on any controller whose channel-B pins
are absent is a no-op returning unchanged state, an empty trace and no
error; channel-A calls never alter the stored channel-B pin fields. -/
theorem C6_channel_b_optional (g : Gpio) (ena in1 in2 : Int) :
    (∃ g0 c0 tr,
      L298N.mk0 g ena in1 in2 none none none = .ok (g0, c0, tr)
      ∧ c0.in3_pin = none ∧ c0.in4_pin = none ∧ c0.enb_pin = none)
    ∧ (∀ (g1 : Gpio) (c : L298N) (s : ℚ),
        c.in3_pin = none → c.in4_pin = none → c.enb_pin = none →
        c.motor_b_forward g1 s = .ok (g1, c, [])
        ∧ c.motor_b_backward g1 s = .ok (g1, c, [])
        ∧ c.stop_motor_b g1 = .ok (g1, c, []))
    ∧ (∀ (g1 : Gpio) (c : L298N) (cmd : ACmd),
        (runACmd g1 c cmd).2.1.in3_pin = c.in3_pin
        ∧ (runACmd g1 c cmd).2.1.in4_pin = c.in4_pin
        ∧ (runACmd g1 c cmd).2.1.enb_pin = c.enb_pin) := by
  refine ⟨⟨_, _, _, rfl, rfl, rfl, rfl⟩, ?_, ?_⟩
  · intro g1 c s h3 h4 h5
    refine ⟨?_, ?_, ?_⟩ <;>
      simp [L298N.motor_b_forward, L298N.motor_b_backward,
        L298N.stop_motor_b, L298N.hasB, h3, h4, h5, truthy]
  · intro g1 c cmd
    cases cmd <;>
      simp [runACmd, L298N.motor_a_forward, L298N.motor_a_backward,
        L298N.stop_motor_a]

/-- Witness for C6 at a concrete A-only bank and state. -/
theorem C6_witness :
    (∃ g0 c0 tr,
      L298N.mk0 Gpio.initial 25 23 24 none none none = .ok (g0, c0, tr)
      ∧ c0.in3_pin = none ∧ c0.in4_pin = none ∧ c0.enb_pin = none)
    ∧ ((⟨25, 23, 24, none, none, none, Gpio.initial.PWM 25 1000, none⟩ :
          L298N).motor_b_forward Gpio.initial 50 =
        .ok (Gpio.initial,
          ⟨25, 23, 24, none, none, none, Gpio.initial.PWM 25 1000, none⟩, [])) :=
  ⟨(C6_channel_b_optional Gpio.initial 25 23 24).1,
   ((C6_channel_b_optional Gpio.initial 25 23 24).2.1 Gpio.initial
      ⟨25, 23, 24, none, none, none, Gpio.initial.PWM 25 1000, none⟩ 50
      rfl rfl rfl).1⟩

/-- C10 counterexample: a bank constructed with IN3=5, IN4=6, ENB=0 —
ENB is a falsy pin id, so the claim says every channel-B operation
becomes a no-op; but `stop_motor_b` only tests IN3 and IN4 and therefore
still writes both B direction pins. -/
theorem C10_counterexample :
    ((demoBankEnb0.2.1.stop_motor_b demoBankEnb0.1).map (fun r => r.2.2)) =
      .ok [Eff.gpioWrite 0 5 false, Eff.gpioWrite 0 6 false]
    ∧ ([Eff.gpioWrite 0 5 false, Eff.gpioWrite 0 6 false] : List Eff) ≠ [] :=
  ⟨rfl, by decide⟩

/-- C10 amended: if any of IN3, IN4, ENB is 0 or `None`, construction
succeeds without claiming any channel-B pin as an output (only the three
channel-A pins are set up), a PWM object on ENB is nevertheless created
iff ENB alone is truthy, and `motor_b_forward`/`motor_b_backward` are
no-ops that never raise; `stop_motor_b` is a no-op iff NOT both IN3 and
IN4 are truthy — when both are truthy and only ENB is falsy it still
writes both B direction pins LOW. Presence is truthiness, so 0 behaves
like `None`. -/
theorem C10_amended (g : Gpio) (ena in1 in2 : Int) (oin3 oin4 oenb : Option Int)
    (hnb : ¬(truthy oin3 = true ∧ truthy oin4 = true ∧ truthy oenb = true)) :
    (L298N.mk0 g ena in1 in2 oin3 oin4 oenb).isOk = true
    ∧ ∀ g0 c0 tr,
        L298N.mk0 g ena in1 in2 oin3 oin4 oenb = .ok (g0, c0, tr) →
        tr.filter isClaim =
            [.claimOut 0 ena, .claimOut 0 in1, .claimOut 0 in2]
        ∧ c0.pwm_b.isSome = truthy oenb
        ∧ (∀ (g1 : Gpio) (s : ℚ),
            c0.motor_b_forward g1 s = .ok (g1, c0, [])
            ∧ c0.motor_b_backward g1 s = .ok (g1, c0, []))
        ∧ (¬(truthy oin3 = true ∧ truthy oin4 = true) →
            ∀ g1 : Gpio, c0.stop_motor_b g1 = .ok (g1, c0, []))
        ∧ ((truthy oin3 = true ∧ truthy oin4 = true) →
            ∀ (g1 : Gpio) (h1 : Nat), g1.handle = some h1 →
              ((c0.stop_motor_b g1).map (fun r => r.2.2)) =
                .ok [.gpioWrite h1 (pinVal oin3) false,
                  .gpioWrite h1 (pinVal oin4) false]) := by
  have hB : (truthy oin3 && truthy oin4 && truthy oenb) = false := by
    cases t3 : truthy oin3 <;> cases t4 : truthy oin4 <;>
      cases t5 : truthy oenb <;> simp_all
  cases t34 : (truthy oin3 && truthy oin4) <;> cases t5 : truthy oenb
  · refine ⟨?_, ?_⟩
    · simp only [L298N.mk0, Gpio.setmode, Gpio.setup, Gpio.PWM,
        Pwm.start, L298N.stop_all, L298N.stop_motor_a,
        L298N.stop_motor_b, Gpio.output, Pwm.ChangeDutyCycle,
        bind, Except.bind, pure, hB, t34, t5]
      rfl
    · intro g0 c0 tr hmk
      simp only [L298N.mk0, Gpio.setmode, Gpio.setup, Gpio.PWM,
        Pwm.start, L298N.stop_all, L298N.stop_motor_a,
        L298N.stop_motor_b, Gpio.output, Pwm.ChangeDutyCycle,
        bind, Except.bind, pure, hB, t34, t5, Except.ok.injEq,
        Prod.mk.injEq] at hmk
      obtain ⟨rfl, rfl, rfl⟩ := hmk
      refine ⟨?_, ?_, ?_, ?_, ?_⟩
      · simp [isClaim]
      · simp [t5]
      · intro g1 s
        constructor <;>
          simp [L298N.motor_b_forward, L298N.motor_b_backward,
            L298N.hasB, hB, t34, t5]
      · intro hn34 g1
        simp_all [L298N.stop_motor_b, t34]
      · intro h34 g1 h1 hg1
        simp_all [L298N.stop_motor_b, t34, t5, Gpio.output, Except.map]
  · refine ⟨?_, ?_⟩
    · simp only [L298N.mk0, Gpio.setmode, Gpio.setup, Gpio.PWM,
        Pwm.start, L298N.stop_all, L298N.stop_motor_a,
        L298N.stop_motor_b, Gpio.output, Pwm.ChangeDutyCycle,
        bind, Except.bind, pure, hB, t34, t5]
      rfl
    · intro g0 c0 tr hmk
      simp only [L298N.mk0, Gpio.setmode, Gpio.setup, Gpio.PWM,
        Pwm.start, L298N.stop_all, L298N.stop_motor_a,
        L298N.stop_motor_b, Gpio.output, Pwm.ChangeDutyCycle,
        bind, Except.bind, pure, hB, t34, t5, Except.ok.injEq,
        Prod.mk.injEq] at hmk
      obtain ⟨rfl, rfl, rfl⟩ := hmk
      refine ⟨?_, ?_, ?_, ?_, ?_⟩
      · simp [isClaim]
      · simp [t5]
      · intro g1 s
        constructor <;>
          simp [L298N.motor_b_forward, L298N.motor_b_backward,
            L298N.hasB, hB, t34, t5]
      · intro hn34 g1
        simp_all [L298N.stop_motor_b, t34]
      · intro h34 g1 h1 hg1
        simp_all [L298N.stop_motor_b, t34, t5, Gpio.output, Except.map]
  · refine ⟨?_, ?_⟩
    · simp only [L298N.mk0, Gpio.setmode, Gpio.setup, Gpio.PWM,
        Pwm.start, L298N.stop_all, L298N.stop_motor_a,
        L298N.stop_motor_b, Gpio.output, Pwm.ChangeDutyCycle,
        bind, Except.bind, pure, hB, t34, t5]
      rfl
    · intro g0 c0 tr hmk
      simp only [L298N.mk0, Gpio.setmode, Gpio.setup, Gpio.PWM,
        Pwm.start, L298N.stop_all, L298N.stop_motor_a,
        L298N.stop_motor_b, Gpio.output, Pwm.ChangeDutyCycle,
        bind, Except.bind, pure, hB, t34, t5, Except.ok.injEq,
        Prod.mk.injEq] at hmk
      obtain ⟨rfl, rfl, rfl⟩ := hmk
      refine ⟨?_, ?_, ?_, ?_, ?_⟩
      · simp [isClaim]
      · simp [t5]
      · intro g1 s
        constructor <;>
          simp [L298N.motor_b_forward, L298N.motor_b_backward,
            L298N.hasB, hB, t34, t5]
      · intro hn34 g1
        simp_all [L298N.stop_motor_b, t34]
      · intro h34 g1 h1 hg1
        simp_all [L298N.stop_motor_b, t34, t5, Gpio.output, Except.map]
  · rw [t34, t5] at hB
    simp at hB

/-- Witness for C10 (amended) at the concrete IN3=5, IN4=6, ENB=0 bank
and concrete post-construction states. -/
theorem C10_witness :
    (L298N.mk0 Gpio.initial 25 23 24 (some 5) (some 6) (some 0)).isOk = true
    ∧ demoBankEnb0.2.2.filter isClaim =
        [.claimOut 0 25, .claimOut 0 23, .claimOut 0 24]
    ∧ demoBankEnb0.2.1.pwm_b.isSome = truthy (some 0)
    ∧ (demoBankEnb0.2.1.motor_b_forward Gpio.initial 50 =
          .ok (Gpio.initial, demoBankEnb0.2.1, [])
        ∧ demoBankEnb0.2.1.motor_b_backward Gpio.initial 50 =
          .ok (Gpio.initial, demoBankEnb0.2.1, []))
    ∧ ((demoBankEnb0.2.1.stop_motor_b demoBankEnb0.1).map (fun r => r.2.2)) =
        .ok [.gpioWrite 0 (pinVal (some 5)) false,
          .gpioWrite 0 (pinVal (some 6)) false] :=
  have T := C10_amended Gpio.initial 25 23 24 (some 5) (some 6) (some 0)
    (by decide)
  have T2 := T.2 demoBankEnb0.1 demoBankEnb0.2.1 demoBankEnb0.2.2 rfl
  ⟨T.1, T2.1, T2.2.1, T2.2.2.1 Gpio.initial 50,
    T2.2.2.2.2 ⟨by decide, by decide⟩ demoBankEnb0.1 0 rfl⟩

/-! ### C4: PWM tracking against the backend handle -/

/-- C4 (code bug): `GPIO.PWM` never adds the created instance to the
`_pwm_instances` registry, although `GPIO.cleanup` iterates exactly that
registry to "Stop all PWM instances". Creating and starting a PWM and
then releasing the backend leaves the registry empty; cleanup emits no
PWM-stop transmission, only the chip close, while the created PWM is
still running. -/
theorem C4_pwm_untracked :
    ((Gpio.setmode Gpio.initial).1.PWM 18 1000).handle = some 0
    ∧ ((((Gpio.setmode Gpio.initial).1.PWM 18 1000).start 50).1.running = true)
    ∧ (Gpio.setmode Gpio.initial).1.pwm_instances = []
    ∧ (Gpio.cleanup (Gpio.setmode Gpio.initial).1).2 = [Eff.chipClose 0]
    ∧ (Gpio.cleanup (Gpio.setmode Gpio.initial).1).1.handle = none :=
  ⟨rfl, rfl, rfl, rfl, rfl⟩

theorem filter_isSleep_changeDuty (p : Pwm) (q : ℚ) :
    ((p.ChangeDutyCycle q).2).filter isSleep = [] := by
  simp only [Pwm.ChangeDutyCycle]
  split
  · cases p.handle <;> simp [isSleep]
  · simp

theorem filter_isSleep_output (g : Gpio) (pin : Int) (v : Bool) :
    ((g.output pin v).2).filter isSleep = [] := by
  cases hh : g.handle <;> simp [Gpio.output, hh, isSleep]

theorem changeDuty_duty (p : Pwm) (q : ℚ) :
    (p.ChangeDutyCycle q).1.duty_cycle = q := rfl

/-! ### C8: duration handling of the coordinator motion calls -/

/-- C8 counterexample: with the explicitly given duration 0, the
coordinator motion call neither pauses nor calls `stop_all` — it behaves
exactly like the omitted-duration call (the source tests `if duration:`,
and `0` is falsy), leaving the duty at 50 rather than stopping. -/
theorem C8_counterexample :
    Tank.move_forward demoTank.1 demoTank.2.1 50 (some 0) =
      Tank.move_forward demoTank.1 demoTank.2.1 50 none
    ∧ ((Tank.move_forward demoTank.1 demoTank.2.1 50 (some 0)).map
        (fun r => (r.2.2.filter isSleep,
          r.2.1.left_controller.pwm_a.duty_cycle))) = .ok ([], 50) :=
  ⟨rfl, rfl⟩

/-- C8 amended: for each coordinator motion call, a nonzero given
duration makes the call behave as the duration-free call followed by a
pause of that duration and a `stop_all`; an omitted duration — and
likewise the falsy duration 0 — returns with the actuators still driven:
no pause appears in the trace, every channel's duty is the commanded
speed, and no stop is issued by the coordinator on its own. -/
theorem C8_duration (g : Gpio) (t : Tank) (op : MoveOp) (s : ℚ)
    (pbL pbR : Pwm)
    (hLB : t.left_controller.hasB = true)
    (hLpb : t.left_controller.pwm_b = some pbL)
    (hRB : t.right_controller.hasB = true)
    (hRpb : t.right_controller.pwm_b = some pbR) :
    (∀ dd : ℚ, dd ≠ 0 →
      t.moveCall g op s (some dd) =
        (t.moveCall g op s none).bind (fun r =>
          (Tank.stop_all r.1 r.2.1).map (fun rs =>
            (rs.1, rs.2.1, r.2.2 ++ [Eff.sleep dd] ++ rs.2.2))))
    ∧ t.moveCall g op s (some 0) = t.moveCall g op s none
    ∧ ((t.moveCall g op s none).map (fun r =>
        (r.2.2.filter isSleep,
         r.2.1.left_controller.pwm_a.duty_cycle,
         r.2.1.left_controller.pwm_b.map Pwm.duty_cycle,
         r.2.1.right_controller.pwm_a.duty_cycle,
         r.2.1.right_controller.pwm_b.map Pwm.duty_cycle))) =
      .ok ([], s, some s, s, some s) := by
  obtain ⟨⟨hL3, hL4⟩, hL5⟩ :
      (truthy t.left_controller.in3_pin = true
        ∧ truthy t.left_controller.in4_pin = true)
      ∧ truthy t.left_controller.enb_pin = true := by
    rw [L298N.hasB, Bool.and_eq_true, Bool.and_eq_true] at hLB
    exact hLB
  obtain ⟨⟨hR3, hR4⟩, hR5⟩ :
      (truthy t.right_controller.in3_pin = true
        ∧ truthy t.right_controller.in4_pin = true)
      ∧ truthy t.right_controller.enb_pin = true := by
    rw [L298N.hasB, Bool.and_eq_true, Bool.and_eq_true] at hRB
    exact hRB
  refine ⟨?_, ?_, ?_⟩
  · intro dd hdd
    cases op <;>
      cases hh : g.handle <;>
        simp [Tank.moveCall, Tank.move_forward, Tank.move_backward,
          Tank.turn_left, Tank.turn_right, Tank.drive,
          Tank.durationEpilogue, Tank.stop_all, truthyQ, hdd,
          L298N.motor_a_forward, L298N.motor_a_backward,
          L298N.motor_b_forward, L298N.motor_b_backward, L298N.hasB,
          L298N.stop_all, L298N.stop_motor_a, L298N.stop_motor_b,
          hL3, hL4, hL5, hR3, hR4, hR5, hLpb, hRpb,
          Gpio.output, hh, Pwm.ChangeDutyCycle, bind, Except.bind,
          Except.map, pure]
  · cases op <;>
      simp [Tank.moveCall, Tank.move_forward, Tank.move_backward,
        Tank.turn_left, Tank.turn_right, Tank.durationEpilogue, truthyQ,
        bind, Except.bind]
  · cases op <;>
      simp [Tank.moveCall, Tank.move_forward, Tank.move_backward,
        Tank.turn_left, Tank.turn_right, Tank.drive,
        Tank.durationEpilogue, truthyQ,
        L298N.motor_a_forward, L298N.motor_a_backward,
        L298N.motor_b_forward, L298N.motor_b_backward, L298N.hasB,
        hL3, hL4, hL5, hR3, hR4, hR5, hLpb, hRpb,
        bind, Except.bind, Except.map, pure, List.filter_append,
        filter_isSleep_changeDuty, filter_isSleep_output, changeDuty_duty]

/-- Witness for C8 (amended) on the concrete coordinator at speed 50. -/
theorem C8_witness :
    (∀ dd : ℚ, dd ≠ 0 →
      demoTank.2.1.moveCall demoTank.1 MoveOp.fwd 50 (some dd) =
        (demoTank.2.1.moveCall demoTank.1 MoveOp.fwd 50 none).bind (fun r =>
          (Tank.stop_all r.1 r.2.1).map (fun rs =>
            (rs.1, rs.2.1, r.2.2 ++ [Eff.sleep dd] ++ rs.2.2))))
    ∧ demoTank.2.1.moveCall demoTank.1 MoveOp.fwd 50 (some 0) =
        demoTank.2.1.moveCall demoTank.1 MoveOp.fwd 50 none
    ∧ ((demoTank.2.1.moveCall demoTank.1 MoveOp.fwd 50 none).map (fun r =>
        (r.2.2.filter isSleep,
         r.2.1.left_controller.pwm_a.duty_cycle,
         r.2.1.left_controller.pwm_b.map Pwm.duty_cycle,
         r.2.1.right_controller.pwm_a.duty_cycle,
         r.2.1.right_controller.pwm_b.map Pwm.duty_cycle))) =
      .ok ([], 50, some 50, 50, some 50) :=
  C8_duration demoTank.1 demoTank.2.1 MoveOp.fwd 50
    ⟨some 0, 22, 1000, 0, true⟩ ⟨some 0, 16, 1000, 0, true⟩
    rfl rfl rfl rfl

/-! ### C9: mirrored pivot turns -/

/-- C9: at every equal speed, `turn_left` drives both left-bank channels
backward (IN1 LOW / IN2 HIGH pattern) and both right-bank channels
forward (IN1 HIGH / IN2 LOW), and `turn_right` produces exactly the
mirrored per-bank direction assignment, with the same duty `s` on every
one of the four channels, for any coordinator with an open handle,
configured channel Bs, and pairwise-distinct direction pins. -/
theorem C9_turn_mirror (g : Gpio) (t : Tank) (s : ℚ) (h : Nat)
    (pbL pbR : Pwm)
    (hh : g.handle = some h)
    (hLB : t.left_controller.hasB = true)
    (hLpb : t.left_controller.pwm_b = some pbL)
    (hRB : t.right_controller.hasB = true)
    (hRpb : t.right_controller.pwm_b = some pbR)
    (hnd : [t.left_controller.in1_pin, t.left_controller.in2_pin,
            pinVal t.left_controller.in3_pin,
            pinVal t.left_controller.in4_pin,
            t.right_controller.in1_pin, t.right_controller.in2_pin,
            pinVal t.right_controller.in3_pin,
            pinVal t.right_controller.in4_pin].Nodup) :
    ((t.turn_left g s none).map (fun r =>
        (getLevel r.1.levels t.left_controller.in1_pin,
         getLevel r.1.levels t.left_controller.in2_pin,
         getLevel r.1.levels (pinVal t.left_controller.in3_pin),
         getLevel r.1.levels (pinVal t.left_controller.in4_pin),
         getLevel r.1.levels t.right_controller.in1_pin,
         getLevel r.1.levels t.right_controller.in2_pin,
         getLevel r.1.levels (pinVal t.right_controller.in3_pin),
         getLevel r.1.levels (pinVal t.right_controller.in4_pin)))) =
      .ok (false, true, false, true, true, false, true, false)
    ∧ ((t.turn_right g s none).map (fun r =>
        (getLevel r.1.levels t.left_controller.in1_pin,
         getLevel r.1.levels t.left_controller.in2_pin,
         getLevel r.1.levels (pinVal t.left_controller.in3_pin),
         getLevel r.1.levels (pinVal t.left_controller.in4_pin),
         getLevel r.1.levels t.right_controller.in1_pin,
         getLevel r.1.levels t.right_controller.in2_pin,
         getLevel r.1.levels (pinVal t.right_controller.in3_pin),
         getLevel r.1.levels (pinVal t.right_controller.in4_pin)))) =
      .ok (true, false, true, false, false, true, false, true)
    ∧ ((t.turn_left g s none).map (fun r =>
        (r.2.1.left_controller.pwm_a.duty_cycle,
         r.2.1.left_controller.pwm_b.map Pwm.duty_cycle,
         r.2.1.right_controller.pwm_a.duty_cycle,
         r.2.1.right_controller.pwm_b.map Pwm.duty_cycle))) =
      .ok (s, some s, s, some s)
    ∧ ((t.turn_right g s none).map (fun r =>
        (r.2.1.left_controller.pwm_a.duty_cycle,
         r.2.1.left_controller.pwm_b.map Pwm.duty_cycle,
         r.2.1.right_controller.pwm_a.duty_cycle,
         r.2.1.right_controller.pwm_b.map Pwm.duty_cycle))) =
      .ok (s, some s, s, some s) := by
  obtain ⟨⟨hL3, hL4⟩, hL5⟩ :
      (truthy t.left_controller.in3_pin = true
        ∧ truthy t.left_controller.in4_pin = true)
      ∧ truthy t.left_controller.enb_pin = true := by
    rw [L298N.hasB, Bool.and_eq_true, Bool.and_eq_true] at hLB
    exact hLB
  obtain ⟨⟨hR3, hR4⟩, hR5⟩ :
      (truthy t.right_controller.in3_pin = true
        ∧ truthy t.right_controller.in4_pin = true)
      ∧ truthy t.right_controller.enb_pin = true := by
    rw [L298N.hasB, Bool.and_eq_true, Bool.and_eq_true] at hRB
    exact hRB
  simp only [List.nodup_cons, List.mem_cons, List.not_mem_nil, or_false,
    not_or, List.nodup_nil, and_true] at hnd
  obtain ⟨⟨h12, h13, h14, h15, h16, h17, h18⟩,
    ⟨h23, h24, h25, h26, h27, h28⟩, ⟨h34, h35, h36, h37, h38⟩,
    ⟨h45, h46, h47, h48⟩, ⟨h56, h57, h58⟩, ⟨h67, h68⟩, h78⟩ := hnd
  refine ⟨?_, ?_, ?_, ?_⟩ <;>
    simp [Tank.turn_left, Tank.turn_right, Tank.drive,
      Tank.durationEpilogue, truthyQ,
      L298N.motor_a_forward, L298N.motor_a_backward,
      L298N.motor_b_forward, L298N.motor_b_backward, L298N.hasB,
      hL3, hL4, hL5, hR3, hR4, hR5, hLpb, hRpb,
      Gpio.output, hh, setLevel, getLevel, Pwm.ChangeDutyCycle,
      bind, Except.bind, Except.map, pure,
      h12, h13, h14, h15, h16, h17, h18, h23, h24, h25, h26, h27, h28,
      h34, h35, h36, h37, h38, h45, h46, h47, h48, h56, h57, h58,
      h67, h68, h78]

/-- Witness for C9 on the concrete coordinator at speed 50. -/
theorem C9_witness :
    ((demoTank.2.1.turn_left demoTank.1 50 none).map (fun r =>
        (getLevel r.1.levels demoTank.2.1.left_controller.in1_pin,
         getLevel r.1.levels demoTank.2.1.left_controller.in2_pin,
         getLevel r.1.levels (pinVal demoTank.2.1.left_controller.in3_pin),
         getLevel r.1.levels (pinVal demoTank.2.1.left_controller.in4_pin),
         getLevel r.1.levels demoTank.2.1.right_controller.in1_pin,
         getLevel r.1.levels demoTank.2.1.right_controller.in2_pin,
         getLevel r.1.levels (pinVal demoTank.2.1.right_controller.in3_pin),
         getLevel r.1.levels (pinVal demoTank.2.1.right_controller.in4_pin)))) =
      .ok (false, true, false, true, true, false, true, false)
    ∧ ((demoTank.2.1.turn_right demoTank.1 50 none).map (fun r =>
        (getLevel r.1.levels demoTank.2.1.left_controller.in1_pin,
         getLevel r.1.levels demoTank.2.1.left_controller.in2_pin,
         getLevel r.1.levels (pinVal demoTank.2.1.left_controller.in3_pin),
         getLevel r.1.levels (pinVal demoTank.2.1.left_controller.in4_pin),
         getLevel r.1.levels demoTank.2.1.right_controller.in1_pin,
         getLevel r.1.levels demoTank.2.1.right_controller.in2_pin,
         getLevel r.1.levels (pinVal demoTank.2.1.right_controller.in3_pin),
         getLevel r.1.levels (pinVal demoTank.2.1.right_controller.in4_pin)))) =
      .ok (true, false, true, false, false, true, false, true)
    ∧ ((demoTank.2.1.turn_left demoTank.1 50 none).map (fun r =>
        (r.2.1.left_controller.pwm_a.duty_cycle,
         r.2.1.left_controller.pwm_b.map Pwm.duty_cycle,
         r.2.1.right_controller.pwm_a.duty_cycle,
         r.2.1.right_controller.pwm_b.map Pwm.duty_cycle))) =
      .ok (50, some 50, 50, some 50)
    ∧ ((demoTank.2.1.turn_right demoTank.1 50 none).map (fun r =>
        (r.2.1.left_controller.pwm_a.duty_cycle,
         r.2.1.left_controller.pwm_b.map Pwm.duty_cycle,
         r.2.1.right_controller.pwm_a.duty_cycle,
         r.2.1.right_controller.pwm_b.map Pwm.duty_cycle))) =
      .ok (50, some 50, 50, some 50) :=
  C9_turn_mirror demoTank.1 demoTank.2.1 50 0
    ⟨some 0, 22, 1000, 0, true⟩ ⟨some 0, 16, 1000, 0, true⟩
    rfl rfl rfl rfl rfl (by decide)

/-! ### C2: behavior of the public surface after release -/

theorem bankIdle_parts (c : L298N) (hidle : bankIdle c = true) :
    c.pwm_a.running = false ∧ pwmIdle c.pwm_b = true
    ∧ (c.hasB = true → ∃ pb, c.pwm_b = some pb ∧ pb.running = false) := by
  simp only [bankIdle, Bool.and_eq_true, Bool.not_eq_true',
    Bool.or_eq_true] at hidle
  refine ⟨hidle.1.1, hidle.1.2, ?_⟩
  intro hB
  rcases hidle.2 with hc | hs
  · rw [hB] at hc
    cases hc
  · cases hpb : c.pwm_b with
    | none => rw [hpb] at hs; cases hs
    | some pb =>
        refine ⟨pb, rfl, ?_⟩
        have := hidle.1.2
        rw [hpb] at this
        simpa [pwmIdle] using this

theorem releasedState_parts (g : Gpio) (t : Tank)
    (hrel : releasedState g t = true) :
    g.handle = none ∧ bankIdle t.left_controller = true
    ∧ bankIdle t.right_controller = true := by
  simp only [releasedState, Bool.and_eq_true, Option.isNone_iff_eq_none]
    at hrel
  exact ⟨hrel.1.1, hrel.1.2, hrel.2⟩

theorem silent_bankA_move (g : Gpio) (c : L298N) (s : ℚ) (fwd : Bool)
    (hg : g.handle = none) (hidle : bankIdle c = true) :
    ∃ c2 tr,
      (if fwd then c.motor_a_forward g s else c.motor_a_backward g s) =
        (g, c2, tr)
      ∧ tr.all silentEff = true ∧ bankIdle c2 = true
      ∧ c2.pwm_a.duty_cycle = s := by
  obtain ⟨ha, hb, -⟩ := bankIdle_parts c hidle
  cases fwd with
  | false =>
      refine ⟨{ c with pwm_a := { c.pwm_a with duty_cycle := s } },
        [.simPrint c.in1_pin false, .simPrint c.in2_pin true], ?_, ?_, ?_, rfl⟩
      · simp [L298N.motor_a_backward, Gpio.output, hg,
          Pwm.ChangeDutyCycle, ha]
      · simp [silentEff]
      · simpa [bankIdle, L298N.hasB, pwmIdle] using hidle
  | true =>
      refine ⟨{ c with pwm_a := { c.pwm_a with duty_cycle := s } },
        [.simPrint c.in1_pin true, .simPrint c.in2_pin false], ?_, ?_, ?_, rfl⟩
      · simp [L298N.motor_a_forward, Gpio.output, hg,
          Pwm.ChangeDutyCycle, ha]
      · simp [silentEff]
      · simpa [bankIdle, L298N.hasB, pwmIdle] using hidle

theorem silent_stopA (g : Gpio) (c : L298N)
    (hg : g.handle = none) (hidle : bankIdle c = true) :
    ∃ c2 tr, c.stop_motor_a g = (g, c2, tr)
      ∧ tr.all silentEff = true ∧ bankIdle c2 = true := by
  obtain ⟨ha, hb, -⟩ := bankIdle_parts c hidle
  refine ⟨{ c with pwm_a := { c.pwm_a with duty_cycle := 0 } },
    [.simPrint c.in1_pin false, .simPrint c.in2_pin false], ?_, ?_, ?_⟩
  · simp [L298N.stop_motor_a, Gpio.output, hg, Pwm.ChangeDutyCycle, ha]
  · simp [silentEff]
  · simpa [bankIdle, L298N.hasB, pwmIdle] using hidle

theorem silent_bankB_move (g : Gpio) (c : L298N) (s : ℚ) (fwd : Bool)
    (hg : g.handle = none) (hidle : bankIdle c = true) :
    ∃ c2 tr,
      (if fwd then c.motor_b_forward g s else c.motor_b_backward g s) =
        .ok (g, c2, tr)
      ∧ tr.all silentEff = true ∧ bankIdle c2 = true := by
  by_cases hB : c.hasB = true
  · obtain ⟨pb, hpb, hrun⟩ := (bankIdle_parts c hidle).2.2 hB
    cases fwd with
    | false =>
        refine ⟨{ c with pwm_b := some { pb with duty_cycle := s } },
          [.simPrint (pinVal c.in3_pin) false,
            .simPrint (pinVal c.in4_pin) true], ?_, ?_, ?_⟩
        · simp [L298N.motor_b_backward, hB, hpb, Gpio.output, hg,
            Pwm.ChangeDutyCycle, hrun]
        · simp [silentEff]
        · have hp := bankIdle_parts c hidle
          simp [bankIdle, L298N.hasB, pwmIdle, hrun, hp.1]
    | true =>
        refine ⟨{ c with pwm_b := some { pb with duty_cycle := s } },
          [.simPrint (pinVal c.in3_pin) true,
            .simPrint (pinVal c.in4_pin) false], ?_, ?_, ?_⟩
        · simp [L298N.motor_b_forward, hB, hpb, Gpio.output, hg,
            Pwm.ChangeDutyCycle, hrun]
        · simp [silentEff]
        · have hp := bankIdle_parts c hidle
          simp [bankIdle, L298N.hasB, pwmIdle, hrun, hp.1]
  · have hBf : c.hasB = false := by
      cases hf : c.hasB
      · rfl
      · exact absurd hf hB
    cases fwd <;>
      · refine ⟨c, [], ?_, rfl, hidle⟩
        simp [L298N.motor_b_forward, L298N.motor_b_backward, hBf]

theorem silent_stopB (g : Gpio) (c : L298N)
    (hg : g.handle = none) (hidle : bankIdle c = true) :
    ∃ c2 tr, c.stop_motor_b g = .ok (g, c2, tr)
      ∧ tr.all silentEff = true ∧ bankIdle c2 = true := by
  cases t34 : (truthy c.in3_pin && truthy c.in4_pin) with
  | false =>
      refine ⟨c, [], ?_, rfl, hidle⟩
      simp [L298N.stop_motor_b, t34]
  | true =>
      cases t5 : truthy c.enb_pin with
      | false =>
          refine ⟨c, [.simPrint (pinVal c.in3_pin) false,
            .simPrint (pinVal c.in4_pin) false], ?_, ?_, hidle⟩
          · simp [L298N.stop_motor_b, t34, t5, Gpio.output, hg]
          · simp [silentEff]
      | true =>
          have hB : c.hasB = true := by
            rw [L298N.hasB, t34, t5]
            rfl
          obtain ⟨pb, hpb, hrun⟩ := (bankIdle_parts c hidle).2.2 hB
          refine ⟨{ c with pwm_b := some { pb with duty_cycle := 0 } },
            [.simPrint (pinVal c.in3_pin) false,
              .simPrint (pinVal c.in4_pin) false], ?_, ?_, ?_⟩
          · simp [L298N.stop_motor_b, t34, t5, hpb, Gpio.output, hg,
              Pwm.ChangeDutyCycle, hrun]
          · simp [silentEff]
          · have hp := bankIdle_parts c hidle
            simp [bankIdle, L298N.hasB, pwmIdle, hrun, hp.1]

theorem silent_bank_stopAll (g : Gpio) (c : L298N)
    (hg : g.handle = none) (hidle : bankIdle c = true) :
    ∃ c2 tr, c.stop_all g = .ok (g, c2, tr)
      ∧ tr.all silentEff = true ∧ bankIdle c2 = true := by
  obtain ⟨cA, trA, hAeq, hAs, hAi⟩ := silent_stopA g c hg hidle
  obtain ⟨cB, trB, hBeq, hBs, hBi⟩ := silent_stopB g cA hg hAi
  refine ⟨cB, trA ++ trB, ?_, ?_, hBi⟩
  · simp [L298N.stop_all, bind, Except.bind, hAeq, hBeq]
  · simp [List.all_append, hAs, hBs]

theorem silent_tank_stopAll (g : Gpio) (t : Tank)
    (hrel : releasedState g t = true) :
    ∃ t2 tr, t.stop_all g = .ok (g, t2, tr)
      ∧ tr.all silentEff = true ∧ releasedState g t2 = true := by
  obtain ⟨hg, hL, hR⟩ := releasedState_parts g t hrel
  obtain ⟨cL, trL, hLeq, hLs, hLi⟩ := silent_bank_stopAll g t.left_controller hg hL
  obtain ⟨cR, trR, hReq, hRs, hRi⟩ := silent_bank_stopAll g t.right_controller hg hR
  refine ⟨{ t with left_controller := cL, right_controller := cR },
    trL ++ trR, ?_, ?_, ?_⟩
  · simp [Tank.stop_all, bind, Except.bind, hLeq, hReq]
  · simp [List.all_append, hLs, hRs]
  · simp [releasedState, hg, hLi, hRi]

theorem silent_drive (g : Gpio) (t : Tank) (lf rf : Bool) (s : ℚ)
    (hrel : releasedState g t = true) :
    ∃ t2 tr, t.drive g lf rf s = .ok (g, t2, tr)
      ∧ tr.all silentEff = true ∧ releasedState g t2 = true := by
  obtain ⟨hg, hL, hR⟩ := releasedState_parts g t hrel
  obtain ⟨cL1, trA, hAeq, hAs, hAi, -⟩ := silent_bankA_move g t.left_controller s lf hg hL
  obtain ⟨cL2, trB, hBeq, hBs, hBi⟩ := silent_bankB_move g cL1 s lf hg hAi
  obtain ⟨cR1, trC, hCeq, hCs, hCi, -⟩ := silent_bankA_move g t.right_controller s rf hg hR
  obtain ⟨cR2, trD, hDeq, hDs, hDi⟩ := silent_bankB_move g cR1 s rf hg hCi
  refine ⟨{ t with left_controller := cL2, right_controller := cR2 },
    trA ++ trB ++ trC ++ trD, ?_, ?_, ?_⟩
  · cases lf <;> cases rf <;> simp_all [Tank.drive, bind, Except.bind]
  · simp [List.all_append, hAs, hBs, hCs, hDs]
  · simp [releasedState, hg, hBi, hDi]

theorem silent_epilogue (g : Gpio) (t1 : Tank) (tr1 : List Eff)
    (d : Option ℚ) (hr1 : releasedState g t1 = true)
    (hs1 : tr1.all silentEff = true) :
    ∃ t2 tr, Tank.durationEpilogue g t1 d tr1 = .ok (g, t2, tr)
      ∧ tr.all silentEff = true ∧ releasedState g t2 = true := by
  cases ht : truthyQ d with
  | false =>
      exact ⟨t1, tr1,
        by simp [Tank.durationEpilogue, ht, bind, Except.bind], hs1, hr1⟩
  | true =>
      obtain ⟨t2, tr2, hstop, hs2, hr2⟩ := silent_tank_stopAll g t1 hr1
      refine ⟨t2, tr1 ++ [.sleep (d.getD 0)] ++ tr2, ?_, ?_, hr2⟩
      · simp [Tank.durationEpilogue, ht, bind, Except.bind, hstop]
      · simp [List.all_append, hs1, hs2, silentEff]

theorem silent_moveCall (g : Gpio) (t : Tank) (op : MoveOp) (s : ℚ)
    (d : Option ℚ) (hrel : releasedState g t = true) :
    ∃ t2 tr, t.moveCall g op s d = .ok (g, t2, tr)
      ∧ tr.all silentEff = true ∧ releasedState g t2 = true := by
  cases op with
  | fwd =>
      obtain ⟨t1, tr1, hd, hs1, hr1⟩ := silent_drive g t true true s hrel
      obtain ⟨t2, tr2, he, hs2, hr2⟩ := silent_epilogue g t1 tr1 d hr1 hs1
      exact ⟨t2, tr2,
        by simp [Tank.moveCall, Tank.move_forward, bind, Except.bind, hd, he],
        hs2, hr2⟩
  | bwd =>
      obtain ⟨t1, tr1, hd, hs1, hr1⟩ := silent_drive g t false false s hrel
      obtain ⟨t2, tr2, he, hs2, hr2⟩ := silent_epilogue g t1 tr1 d hr1 hs1
      exact ⟨t2, tr2,
        by simp [Tank.moveCall, Tank.move_backward, bind, Except.bind, hd, he],
        hs2, hr2⟩
  | tleft =>
      obtain ⟨t1, tr1, hd, hs1, hr1⟩ := silent_drive g t false true s hrel
      obtain ⟨t2, tr2, he, hs2, hr2⟩ := silent_epilogue g t1 tr1 d hr1 hs1
      exact ⟨t2, tr2,
        by simp [Tank.moveCall, Tank.turn_left, bind, Except.bind, hd, he],
        hs2, hr2⟩
  | tright =>
      obtain ⟨t1, tr1, hd, hs1, hr1⟩ := silent_drive g t true false s hrel
      obtain ⟨t2, tr2, he, hs2, hr2⟩ := silent_epilogue g t1 tr1 d hr1 hs1
      exact ⟨t2, tr2,
        by simp [Tank.moveCall, Tank.turn_right, bind, Except.bind, hd, he],
        hs2, hr2⟩

theorem all_silent_append (a b : List Eff)
    (ha : a.all silentEff = true) (hb : b.all silentEff = true) :
    (a ++ b).all silentEff = true := by
  simp [List.all_append, ha, hb]

theorem silent_step_motor (g : Gpio) (st : Stepper) (dir : Int) (delay : ℚ)
    (hg : g.handle = none) :
    (Stepper.step_motor g st dir delay).1 = g
    ∧ (Stepper.step_motor g st dir delay).2.2.all silentEff = true := by
  simp only [Stepper.step_motor]
  have hfold : ∀ (ps : List (Int × Nat)) (g0 : Gpio) (acc : List Eff),
      g0.handle = none → acc.all silentEff = true →
      (ps.foldl (fun acc pv =>
          let o := acc.1.output pv.1 (pv.2 != 0)
          (o.1, acc.2 ++ o.2)) (g0, acc)).1 = g0
      ∧ (ps.foldl (fun acc pv =>
          let o := acc.1.output pv.1 (pv.2 != 0)
          (o.1, acc.2 ++ o.2)) (g0, acc)).2.all silentEff = true := by
    intro ps
    induction ps with
    | nil => intro g0 acc hg0 hacc; exact ⟨rfl, hacc⟩
    | cons p ps ih =>
        intro g0 acc hg0 hacc
        simp only [List.foldl_cons]
        have hout : (g0.output p.1 (p.2 != 0)) =
            (g0, [.simPrint p.1 (p.2 != 0)]) := by
          simp [Gpio.output, hg0]
        rw [hout]
        exact ih g0 _ hg0 (all_silent_append _ _ hacc rfl)
  have h := hfold (st.pins.zip (step_sequence.getD
    (stepNext st.current_step dir).toNat [])) g [] hg rfl
  exact ⟨h.1, all_silent_append _ _ h.2 rfl⟩

theorem silent_rotate (g : Gpio) (st : Stepper) (degrees speed : ℚ)
    (hg : g.handle = none) :
    (Stepper.rotate_degrees g st degrees speed).1 = g
    ∧ (Stepper.rotate_degrees g st degrees speed).2.2.all silentEff = true := by
  simp only [Stepper.rotate_degrees]
  have hfold : ∀ (calls : List Int) (g0 : Gpio) (st0 : Stepper)
      (acc : List Eff), g0.handle = none → acc.all silentEff = true →
      (calls.foldl (fun acc d =>
          let r := Stepper.step_motor acc.1 acc.2.1 d (1 / speed)
          (r.1, r.2.1, acc.2.2 ++ r.2.2)) (g0, st0, acc)).1 = g0
      ∧ (calls.foldl (fun acc d =>
          let r := Stepper.step_motor acc.1 acc.2.1 d (1 / speed)
          (r.1, r.2.1, acc.2.2 ++ r.2.2)) (g0, st0, acc)).2.2.all silentEff
          = true := by
    intro calls
    induction calls with
    | nil => intro g0 st0 acc hg0 hacc; exact ⟨rfl, hacc⟩
    | cons d calls ih =>
        intro g0 st0 acc hg0 hacc
        simp only [List.foldl_cons]
        have hstep := silent_step_motor g0 st0 d (1 / speed) hg0
        have h2 := ih (Stepper.step_motor g0 st0 d (1 / speed)).1
          (Stepper.step_motor g0 st0 d (1 / speed)).2.1
          (acc ++ (Stepper.step_motor g0 st0 d (1 / speed)).2.2)
          (by rw [hstep.1]; exact hg0)
          (all_silent_append _ _ hacc hstep.2)
        exact ⟨h2.1.trans hstep.1, h2.2⟩
  exact hfold (st.rotateCalls degrees) g st [] hg rfl

theorem silent_runCmd (g : Gpio) (t : Tank) (cmd : TCmd)
    (hrel : releasedState g t = true) :
    ∃ r, t.runCmd g cmd = .ok r
      ∧ r.2.2.all silentEff = true ∧ releasedState r.1 r.2.1 = true := by
  obtain ⟨hg, hL, hR⟩ := releasedState_parts g t hrel
  cases cmd with
  | move op s d =>
      obtain ⟨t2, tr, heq, hs, hr⟩ := silent_moveCall g t op s d hrel
      exact ⟨(g, t2, tr), by simp [Tank.runCmd, heq], hs, hr⟩
  | stopAll =>
      obtain ⟨t2, tr, heq, hs, hr⟩ := silent_tank_stopAll g t hrel
      exact ⟨(g, t2, tr), by simp [Tank.runCmd, heq], hs, hr⟩
  | pan deg =>
      have h := silent_rotate g t.gimbal deg 500 hg
      refine ⟨(g, { t with gimbal := (Stepper.rotate_degrees g t.gimbal deg 500).2.1 },
        (Stepper.rotate_degrees g t.gimbal deg 500).2.2), ?_, h.2, ?_⟩
      · simp only [Tank.runCmd, Tank.pan_camera]
        rw [Except.ok.injEq]
        refine congrArg (fun gx => (gx, _, _)) h.1
      · simp [releasedState, hg, hL, hR]
  | leftAFwd s =>
      obtain ⟨c2, tr, heq, hs, hi⟩ := silent_bankA_move g t.left_controller s true hg hL
      simp only [if_true] at heq
      refine ⟨(g, { t with left_controller := c2 }, tr), ?_, hs, ?_⟩
      · simp [Tank.runCmd, heq]
      · simp [releasedState, hg, hi, hR]
  | leftABwd s =>
      obtain ⟨c2, tr, heq, hs, hi⟩ := silent_bankA_move g t.left_controller s false hg hL
      simp only [Bool.false_eq_true, if_false] at heq
      refine ⟨(g, { t with left_controller := c2 }, tr), ?_, hs, ?_⟩
      · simp [Tank.runCmd, heq]
      · simp [releasedState, hg, hi, hR]
  | leftStopA =>
      obtain ⟨c2, tr, heq, hs, hi⟩ := silent_stopA g t.left_controller hg hL
      refine ⟨(g, { t with left_controller := c2 }, tr), ?_, hs, ?_⟩
      · simp [Tank.runCmd, heq]
      · simp [releasedState, hg, hi, hR]
  | leftBFwd s =>
      obtain ⟨c2, tr, heq, hs, hi⟩ := silent_bankB_move g t.left_controller s true hg hL
      simp only [if_true] at heq
      refine ⟨(g, { t with left_controller := c2 }, tr), ?_, hs, ?_⟩
      · simp [Tank.runCmd, bind, Except.bind, heq]
      · simp [releasedState, hg, hi, hR]
  | leftBBwd s =>
      obtain ⟨c2, tr, heq, hs, hi⟩ := silent_bankB_move g t.left_controller s false hg hL
      simp only [Bool.false_eq_true, if_false] at heq
      refine ⟨(g, { t with left_controller := c2 }, tr), ?_, hs, ?_⟩
      · simp [Tank.runCmd, bind, Except.bind, heq]
      · simp [releasedState, hg, hi, hR]
  | leftStopB =>
      obtain ⟨c2, tr, heq, hs, hi⟩ := silent_stopB g t.left_controller hg hL
      refine ⟨(g, { t with left_controller := c2 }, tr), ?_, hs, ?_⟩
      · simp [Tank.runCmd, bind, Except.bind, heq]
      · simp [releasedState, hg, hi, hR]
  | rightAFwd s =>
      obtain ⟨c2, tr, heq, hs, hi⟩ := silent_bankA_move g t.right_controller s true hg hR
      simp only [if_true] at heq
      refine ⟨(g, { t with right_controller := c2 }, tr), ?_, hs, ?_⟩
      · simp [Tank.runCmd, heq]
      · simp [releasedState, hg, hL, hi]
  | rightBFwd s =>
      obtain ⟨c2, tr, heq, hs, hi⟩ := silent_bankB_move g t.right_controller s true hg hR
      simp only [if_true] at heq
      refine ⟨(g, { t with right_controller := c2 }, tr), ?_, hs, ?_⟩
      · simp [Tank.runCmd, bind, Except.bind, heq]
      · simp [releasedState, hg, hL, hi]
  | rightStopB =>
      obtain ⟨c2, tr, heq, hs, hi⟩ := silent_stopB g t.right_controller hg hR
      refine ⟨(g, { t with right_controller := c2 }, tr), ?_, hs, ?_⟩
      · simp [Tank.runCmd, bind, Except.bind, heq]
      · simp [releasedState, hg, hL, hi]
  | gimbalStep dir delay =>
      have h := silent_step_motor g t.gimbal dir delay hg
      refine ⟨(g, { t with gimbal := (Stepper.step_motor g t.gimbal dir delay).2.1 },
        (Stepper.step_motor g t.gimbal dir delay).2.2), ?_, h.2, ?_⟩
      · simp only [Tank.runCmd]
        rw [Except.ok.injEq]
        refine congrArg (fun gx => (gx, _, _)) h.1
      · simp [releasedState, hg, hL, hR]

/-- C2 counterexample: after `release()` has completed
(`TankController.cleanup` on the fully wired demo coordinator), calling
`move_forward(50)` does NOT signal an error: it returns successfully,
and every emitted effect is a mere simulation print (no hardware touched,
no exception) — the call silently no-ops. -/
theorem C2_counterexample :
    ((demoReleased.2.1.runCmd demoReleased.1
        (TCmd.move MoveOp.fwd 50 none)).map
      (fun r => r.2.2.all silentEff)) = .ok true := rfl

/-- C2 amended: `release()` leaves the system in the released state
(handle closed, all PWMs stopped), and in that state every public
operation — the four motion calls with any speed and duration, stop,
pan, and the per-bank motor and stepper calls — completes WITHOUT
signaling an error; its whole effect trace consists of simulation prints
and pauses (no hardware write, no PWM transmission), and the system
stays released. Calls after release are silent no-ops, not loud
failures. -/
theorem C2_after_release :
    (∃ r, Tank.cleanup demoTank.1 demoTank.2.1 = .ok r
      ∧ releasedState r.1 r.2.1 = true)
    ∧ ∀ (g : Gpio) (t : Tank) (cmd : TCmd), releasedState g t = true →
        ∃ r, t.runCmd g cmd = .ok r
          ∧ r.2.2.all silentEff = true
          ∧ releasedState r.1 r.2.1 = true :=
  ⟨⟨demoReleased, rfl, by decide⟩, silent_runCmd⟩

/-- Witness for C2 (amended): panning the turret after release succeeds
silently on the concrete released coordinator. -/
theorem C2_witness :
    ∃ r, demoReleased.2.1.runCmd demoReleased.1 (TCmd.pan 90) = .ok r
      ∧ r.2.2.all silentEff = true
      ∧ releasedState r.1 r.2.1 = true :=
  C2_after_release.2 demoReleased.1 demoReleased.2.1 (TCmd.pan 90)
    (by decide)

end TankAgent
